import Mathlib

/-!
# PhoneVR native client: render / tracking orchestration

A shallow embedding of `alvr_main.cpp` and `passthrough.cpp`
(`code/mobile/android/PhoneVR/app/src/main/cpp`).

Conventions of the embedding

* C `float` values are exact numbers: the pose arithmetic is stated over an arbitrary
  commutative ring, the state machine carries rationals.
* `jint` / `int` values are integers (`Int`), `/` on them is truncating division.
* A GL object name (`GLuint`) is a natural number, `0` is the null name.
* Calls into the collaborators (ALVR client core, Cardboard SDK, GL) are recorded, in call
  order, in a trace of `Effect`s; what the collaborators answer is an input of the step.
-/

namespace PhoneVR

/-! ## PoseMath (`alvr_main.cpp`, lines 151-181) -/

/-- The four components of `AlvrQuat`, in declaration order `x, y, z, w`. -/
structure AlvrQuat (α : Type) where
  x : α
  y : α
  z : α
  w : α
deriving DecidableEq, Repr

/-- A C array `float v[3]`. -/
structure Float3 (α : Type) where
  e0 : α
  e1 : α
  e2 : α
deriving DecidableEq, Repr

/-- A C array `float f[4]`. -/
structure Float4 (α : Type) where
  e0 : α
  e1 : α
  e2 : α
  e3 : α
deriving DecidableEq, Repr

/-- The field of view handed to ALVR (`AlvrFov`). -/
structure AlvrFov (α : Type) where
  left : α
  right : α
  up : α
  down : α
deriving DecidableEq, Repr

section PoseMath

variable {α : Type} [CommRing α]

/-- Source: `AlvrQuat inverseQuat(AlvrQuat q) { return {-q.x, -q.y, -q.z, q.w}; }`. -/
def inverseQuat (q : AlvrQuat α) : AlvrQuat α :=
  { x := -q.x, y := -q.y, z := -q.z, w := q.w }

/-- Source: `void cross(float a[3], float b[3], float out[3])`. -/
def cross (a b : Float3 α) : Float3 α :=
  { e0 := a.e1 * b.e2 - a.e2 * b.e1
    e1 := a.e2 * b.e0 - a.e0 * b.e2
    e2 := a.e0 * b.e1 - a.e1 * b.e0 }

/-- Source: `void quatVecMultiply(AlvrQuat q, float v[3], float out[3])`. -/
def quatVecMultiply (q : AlvrQuat α) (v : Float3 α) : Float3 α :=
  let r : Float3 α := { e0 := q.x, e1 := q.y, e2 := q.z }
  let rv := cross r v
  let rrv := cross r rv
  { e0 := v.e0 + 2 * (q.w * rv.e0 + rrv.e0)
    e1 := v.e1 + 2 * (q.w * rv.e1 + rrv.e1)
    e2 := v.e2 + 2 * (q.w * rv.e2 + rrv.e2) }

/-- Source: the body of `getFov` after the collaborator has filled `f[4]`:
`left = -f[0]`, `right = f[1]`, `up = f[3]`, `down = -f[2]`. -/
def getFov (f : Float4 α) : AlvrFov α :=
  { left := -f.e0, right := f.e1, up := f.e3, down := -f.e2 }

/-- Squared norm `x^2 + y^2 + z^2 + w^2` of a quaternion. -/
def AlvrQuat.normSq (q : AlvrQuat α) : α :=
  q.x ^ 2 + q.y ^ 2 + q.z ^ 2 + q.w ^ 2

/-- Squared length of a 3-vector. -/
def Float3.normSq (v : Float3 α) : α :=
  v.e0 ^ 2 + v.e1 ^ 2 + v.e2 ^ 2

/-- The expression the specification gives for `rotate`:
`v + 2 * (w * (r × v) + r × (r × v))`, with `r` the vector part of `q`,
written component by component with the textbook cross product. -/
def rotateSpec (q : AlvrQuat α) (v : Float3 α) : Float3 α :=
  let rvx := q.y * v.e2 - q.z * v.e1
  let rvy := q.z * v.e0 - q.x * v.e2
  let rvz := q.x * v.e1 - q.y * v.e0
  { e0 := v.e0 + 2 * (q.w * rvx + (q.y * rvz - q.z * rvy))
    e1 := v.e1 + 2 * (q.w * rvy + (q.z * rvx - q.x * rvz))
    e2 := v.e2 + 2 * (q.w * rvz + (q.x * rvy - q.y * rvx)) }

/-- The Hamilton product of two quaternions (`w` is the scalar part), as in the
textbook definition `i^2 = j^2 = k^2 = ijk = -1`. -/
def hamilton (p q : AlvrQuat α) : AlvrQuat α :=
  { w := p.w * q.w - p.x * q.x - p.y * q.y - p.z * q.z
    x := p.w * q.x + p.x * q.w + p.y * q.z - p.z * q.y
    y := p.w * q.y - p.x * q.z + p.y * q.w + p.z * q.x
    z := p.w * q.z + p.x * q.y - p.y * q.x + p.z * q.w }

/-- The pure quaternion `(v, 0)` of a 3-vector. -/
def pureQuat (v : Float3 α) : AlvrQuat α :=
  { x := v.e0, y := v.e1, z := v.e2, w := 0 }

/-- The vector part of a quaternion. -/
def AlvrQuat.vectorPart (q : AlvrQuat α) : Float3 α :=
  { e0 := q.x, e1 := q.y, e2 := q.z }

end PoseMath

/-! ## Data model of the orchestrator (`alvr_main.cpp`, lines 35-45 and 106-143) -/

/-- A GL object name; `0` is the null name, which the `glDelete*` calls ignore. -/
abbrev GLuint := Nat

/-- Source: `const uint64_t VSYNC_QUEUE_INTERVAL_NS = 50e6;`. -/
def VSYNC_QUEUE_INTERVAL_NS : Int := 50000000

/-- Source: `const float FLOOR_HEIGHT = 1.5;`. -/
def FLOOR_HEIGHT : ℚ := 3 / 2

/-- The Cardboard eye index: `kLeft = 0`, `kRight = 1`. -/
inductive CardboardEye where
  | kLeft
  | kRight
deriving DecidableEq, Repr

/-- The integer value of an eye index, as used in `0.5 * eye`. -/
def CardboardEye.toNat : CardboardEye → Nat
  | .kLeft => 0
  | .kRight => 1

/-- Source: `struct Pose { float position[3]; AlvrQuat orientation; }`. -/
structure Pose where
  position : Float3 ℚ
  orientation : AlvrQuat ℚ
deriving DecidableEq, Repr

/-- The fields of `CardboardEyeTextureDescription` the code writes. -/
structure CardboardEyeTextureDescription where
  texture : GLuint
  left_u : ℚ
  right_u : ℚ
  top_v : ℚ
  bottom_v : ℚ
deriving DecidableEq, Repr

/-- The payload `event.STREAMING_STARTED` of a stream-started event: the fields
`renderNative` reads from it. -/
structure StreamingStarted where
  view_width : Nat
  view_height : Nat
  enable_foveation : Bool
  foveation_center_size_x : ℚ
  foveation_center_size_y : ℚ
  foveation_center_shift_x : ℚ
  foveation_center_shift_y : ℚ
  foveation_edge_ratio_x : ℚ
  foveation_edge_ratio_y : ℚ
deriving DecidableEq, Repr

/-- The fields of `AlvrStreamConfig` that `renderNative` fills before calling
`alvr_start_stream_opengl`; `swapchain_textures` holds the left and right handle. -/
structure AlvrStreamConfig where
  view_resolution_width : Nat
  view_resolution_height : Nat
  swapchain_textures : GLuint × GLuint
  swapchain_length : Nat
  enable_foveation : Bool
  foveation_center_size_x : ℚ
  foveation_center_size_y : ℚ
  foveation_center_shift_x : ℚ
  foveation_center_shift_y : ℚ
  foveation_edge_ratio_x : ℚ
  foveation_edge_ratio_y : ℚ
deriving DecidableEq, Repr

/-- The fields of `AlvrViewInput` the lobby branch fills. -/
structure AlvrViewInput where
  orientation : AlvrQuat ℚ
  position : Float3 ℚ
  fov : AlvrFov ℚ
  swapchain_index : Nat
deriving DecidableEq, Repr

/-- A session event polled with `alvr_poll_event`, by `event.tag`.
`HUD_MESSAGE_UPDATED` carries the length that `alvr_hud_message(nullptr)` reports while
the event is handled; `OTHER` stands for every tag `renderNative` does not test for. -/
inductive AlvrEvent where
  | HUD_MESSAGE_UPDATED (message_length : Nat)
  | STREAMING_STARTED (config : StreamingStarted)
  | STREAMING_STOPPED
  | OTHER
deriving DecidableEq, Repr

/-- Source: `struct NativeContext` (the global `CTX`). Pointers are modelled by whether
they are non-null; `inputThread` is whether the `std::thread` member is joinable, that is
whether it owns a tracking task that has not been joined. The Java handles and the two
unused `passthrough_*_eye` members are left out. -/
structure NativeContext where
  headTracker : Bool := false
  lensDistortion : Bool := false
  distortionRenderer : Bool := false
  screenWidth : Int := 0
  screenHeight : Int := 0
  renderingParamsChanged : Bool := true
  glContextRecreated : Bool := false
  running : Bool := false
  streaming : Bool := false
  passthrough : Bool := false
  inputThread : Bool := false
  lobbyTextures : GLuint × GLuint := (0, 0)
  streamTextures : GLuint × GLuint := (0, 0)
  cameraTexture : GLuint := 0
  passthroughTexture : GLuint := 0
  passthroughDepthRenderBuffer : GLuint := 0
  passthroughFramebuffer : GLuint := 0
  passthrough_vertices : List ℚ := [0, 0, 0, 0, 0, 0, 0, 0]
  passthrough_size : ℚ := 1
  eyeOffsets : ℚ × ℚ := (0, 0)
deriving DecidableEq, Repr

/-- The ways the C++ runtime aborts the process inside the event drain:
move-assigning a new `std::thread` over a joinable one calls `std::terminate`, and
`join()` on a thread that is not joinable throws `std::system_error`, which nothing
catches. -/
inductive Fault where
  | thread_assigned_while_joinable
  | join_of_non_joinable_thread
deriving DecidableEq, Repr

/-- A recorded call into a collaborator, or a store to the `streaming` flag the tracking
task reads. The GL calls that create or delete object names carry the generation of the
GL context that is current when they are issued. Calls that only set texture parameters
or pipeline state (`glBindTexture`, `glTexParameteri`, `glEnable`, ...), the shader
compilation, the distortion-mesh and eye-from-head-matrix queries, the release of the
parameter buffer and the logging calls are not recorded. -/
inductive Effect where
  | alvr_initialize_core (viewWidth viewHeight : Nat)
  | alvr_destroy_opengl
  | alvr_destroy
  | alvr_resume
  | alvr_pause
  | alvr_initialize_opengl
  | alvr_send_battery
  | CardboardHeadTracker_create
  | CardboardHeadTracker_destroy
  | CardboardHeadTracker_resume
  | CardboardHeadTracker_pause
  | CardboardHeadTracker_getPose (timestampNs : Int)
  | CardboardQrCode_getSavedDeviceParams
  | CardboardQrCode_scanQrCodeAndSaveDeviceParams
  | CardboardLensDistortion_destroy
  | CardboardLensDistortion_create (screenWidth screenHeight : Int)
  | CardboardLensDistortion_getFieldOfView (eye : CardboardEye)
  | CardboardDistortionRenderer_destroy
  | CardboardOpenGlEs2DistortionRenderer_create
  | CardboardDistortionRenderer_setMesh (eye : CardboardEye)
  | CardboardDistortionRenderer_renderEyeToDisplay (width height : Int)
      (left right : CardboardEyeTextureDescription)
  | alvr_send_views_config (fovLeft fovRight : AlvrFov ℚ) (ipd : ℚ)
  | alvr_pause_opengl
  | alvr_resume_opengl (width height : Int) (targetViews : GLuint × GLuint) (length : Nat)
  | alvr_hud_message
  | alvr_update_hud_message_opengl
  | alvr_start_stream_opengl (config : AlvrStreamConfig)
  | alvr_get_frame
  | alvr_render_stream_opengl (swapchainIndices : Nat × Nat)
  | alvr_report_submit (timestampNs : Int) (vsyncQueue : Int)
  | alvr_render_lobby_opengl (left right : AlvrViewInput)
  | store_streaming (value : Bool)
  | thread_spawn
  | thread_join
  | glCreateProgram
  | glGenTextures (generation : Nat) (names : List GLuint)
  | glGenRenderbuffers (generation : Nat) (name : GLuint)
  | glGenFramebuffers (generation : Nat) (name : GLuint)
  | glDeleteTextures (generation : Nat) (names : List GLuint)
  | glDeleteRenderbuffers (generation : Nat) (name : GLuint)
  | glDeleteFramebuffers (generation : Nat) (name : GLuint)
  | glTexImage2D (texture : GLuint) (width height : Int)
  | glRenderbufferStorage (renderbuffer : GLuint) (width height : Int)
  | glBindFramebuffer (framebuffer : GLuint)
  | glClear
  | glViewport (x y width height : Int)
  | glDrawArrays (count : Nat)
deriving DecidableEq, Repr

/-- The process state: the global `CTX`, the GL object-name supply, the queue of session
events that `alvr_poll_event` pops from, and the trace of calls made so far.
`glGeneration` counts the GL contexts created so far and `nextName` is the next object
name never handed out before (names are kept distinct across contexts so that a stale
name can be told from a live one). -/
structure Sys where
  ctx : NativeContext := {}
  glGeneration : Nat := 0
  nextName : Nat := 1
  events : List AlvrEvent := []
  trace : List Effect := []
deriving DecidableEq, Repr

/-- Record one call at the end of the trace. -/
def Sys.emit (s : Sys) (e : Effect) : Sys :=
  { s with trace := s.trace ++ [e] }

/-- What the head tracker writes into `pos[3]` and `q[4]`. -/
structure TrackerReply where
  pos : Float3 ℚ
  q : Float4 ℚ
deriving DecidableEq, Repr

/-- What the collaborators answer during one call of `renderNative`:
the `size` of the saved device parameters, `matrix[12]` of the eye-from-head matrix and
the raw field of view of each eye, the timestamp `alvr_get_frame` returns (`-1` when no
frame is ready), the boot time and the head tracker's reply for a timestamp. -/
structure RenderInput where
  savedParamsSize : Int
  eyeFromHead12 : CardboardEye → ℚ
  fieldOfView : CardboardEye → Float4 ℚ
  frameTimestampNs : Int
  bootTimeNano : Int
  headTracker : Int → TrackerReply

/-! ## Pose prediction and host calls (`alvr_main.cpp`, lines 183-380) -/

/-- Conversion of an integer to `uint64_t`. -/
def toUint64 (n : Int) : Int := n % 2 ^ 64

/-- Conversion of an integer to `int64_t` (two's complement). -/
def toInt64 (n : Int) : Int := (n + 2 ^ 63) % 2 ^ 64 - 2 ^ 63

/-- Conversion of an integer to `uint32_t`. -/
def toUint32 (n : Int) : Nat := (n % 2 ^ 32).toNat

/-- Source: `Pose getPose(uint64_t timestampNs)`; `tracker` is
`CardboardHeadTracker_getPose` as a function of the timestamp it is given. -/
def getPose (tracker : Int → TrackerReply) (timestampNs : Int) : Pose :=
  let r := tracker (toInt64 timestampNs)
  let inverseOrientation : AlvrQuat ℚ := { x := r.q.e0, y := r.q.e1, z := r.q.e2, w := r.q.e3 }
  { orientation := inverseQuat inverseOrientation
    position := { e0 := 0, e1 := FLOOR_HEIGHT, e2 := 0 } }

/-- Source: `createPassthroughPlane`: the eight vertex coordinates for a plane size, in the
order bottom left, bottom right, top left, top right. -/
def createPassthroughPlane (size : ℚ) : List ℚ :=
  [-size, -size, size, -size, -size, size, size, size]

/-- Source: `uint32_t viewWidth = std::max(screenWidth, screenHeight) / 2;`. -/
def viewWidth (screenWidth screenHeight : Int) : Nat :=
  toUint32 (Int.tdiv (max screenWidth screenHeight) 2)

/-- Source: `uint32_t viewHeight = std::min(screenWidth, screenHeight);`. -/
def viewHeight (screenWidth screenHeight : Int) : Nat :=
  toUint32 (min screenWidth screenHeight)

/-- Source: `Java_viritualisres_phonevr_ALVRActivity_initializeNative`. -/
def initializeNative (screenWidth screenHeight : Int) (s : Sys) : Sys :=
  let s1 := s.emit (.alvr_initialize_core (viewWidth screenWidth screenHeight)
    (viewHeight screenWidth screenHeight))
  let s2 := s1.emit .CardboardHeadTracker_create
  { s2 with ctx := { s.ctx with
      headTracker := true
      passthrough_vertices := createPassthroughPlane s.ctx.passthrough_size } }

/-- Source: `Java_viritualisres_phonevr_ALVRActivity_destroyNative`. -/
def destroyNative (s : Sys) : Sys :=
  let s1 := (s.emit .alvr_destroy_opengl).emit .alvr_destroy
  let s2 := ((s1.emit .CardboardHeadTracker_destroy).emit
    .CardboardLensDistortion_destroy).emit .CardboardDistortionRenderer_destroy
  { s2 with ctx := { s.ctx with
      headTracker := false, lensDistortion := false, distortionRenderer := false } }

/-- Source: `Java_viritualisres_phonevr_ALVRActivity_resumeNative`; `size` is what
`CardboardQrCode_getSavedDeviceParams` reports. -/
def resumeNative (size : Int) (s : Sys) : Sys :=
  let s1 := (s.emit .CardboardHeadTracker_resume).emit .CardboardQrCode_getSavedDeviceParams
  let s2 := if size == 0 then s1.emit .CardboardQrCode_scanQrCodeAndSaveDeviceParams else s1
  let s3 := s2.emit .alvr_resume
  { s3 with ctx := { s.ctx with renderingParamsChanged := true, running := true } }

/-- Source: `Java_viritualisres_phonevr_ALVRActivity_pauseNative`. -/
def pauseNative (s : Sys) : Sys :=
  let s1 := (s.emit .alvr_pause).emit .CardboardHeadTracker_pause
  { s1 with ctx := { s.ctx with running := false } }

/-- Source: `Java_viritualisres_phonevr_ALVRActivity_setPassthroughActiveNative`. -/
def setPassthroughActiveNative (activate : Bool) (s : Sys) : Sys :=
  { s with ctx := { s.ctx with passthrough := activate, renderingParamsChanged := true } }

/-- Source: `Java_viritualisres_phonevr_ALVRActivity_setPassthroughSizeNative`. -/
def setPassthroughSizeNative (size : ℚ) (s : Sys) : Sys :=
  { s with ctx := { s.ctx with
      passthrough_size := size, passthrough_vertices := createPassthroughPlane size } }

/-- Source: `Java_viritualisres_phonevr_ALVRActivity_surfaceCreatedNative`. The host calls
it when a GL context has been created, so the context generation advances first; the
camera texture is a new name of the new context. -/
def surfaceCreatedNative (s : Sys) : Sys :=
  let g := s.glGeneration + 1
  let s1 := (s.emit .alvr_initialize_opengl).emit .glCreateProgram
  let s2 := s1.emit (.glGenTextures g [s.nextName])
  { s2 with
    glGeneration := g
    nextName := s.nextName + 1
    ctx := { s.ctx with cameraTexture := s.nextName, glContextRecreated := true } }

/-- Source: `Java_viritualisres_phonevr_ALVRActivity_setScreenResolutionNative`. -/
def setScreenResolutionNative (width height : Int) (s : Sys) : Sys :=
  { s with ctx := { s.ctx with
      screenWidth := width, screenHeight := height, renderingParamsChanged := true } }

/-- Source: `Java_viritualisres_phonevr_ALVRActivity_sendBatteryLevel`. -/
def sendBatteryLevel (s : Sys) : Sys :=
  s.emit .alvr_send_battery

/-- Source: `Java_viritualisres_phonevr_ALVRActivity_switchViewerNative`. -/
def switchViewerNative (s : Sys) : Sys :=
  s.emit .CardboardQrCode_scanQrCodeAndSaveDeviceParams

/-! ## GPU resources (`alvr_main.cpp`, lines 382-428 and 482-521) -/

/-- Source: `void cleanupPassthrough()`. -/
def cleanupPassthrough (s : Sys) : Sys :=
  let s1 := if s.ctx.passthroughDepthRenderBuffer ≠ 0 then
      { s.emit (.glDeleteRenderbuffers s.glGeneration s.ctx.passthroughDepthRenderBuffer) with
        ctx := { s.ctx with passthroughDepthRenderBuffer := 0 } }
    else s
  let s2 := if s1.ctx.passthroughFramebuffer ≠ 0 then
      { s1.emit (.glDeleteFramebuffers s1.glGeneration s1.ctx.passthroughFramebuffer) with
        ctx := { s1.ctx with passthroughFramebuffer := 0 } }
    else s1
  if s2.ctx.passthroughTexture ≠ 0 then
    { s2.emit (.glDeleteTextures s2.glGeneration [s2.ctx.passthroughTexture]) with
      ctx := { s2.ctx with passthroughTexture := 0 } }
  else s2

/-- Source: `void passthroughSetup()`: a texture, a depth renderbuffer and a framebuffer,
all of the screen size. -/
def passthroughSetup (s : Sys) : Sys :=
  let tex := s.nextName
  let rb := s.nextName + 1
  let fb := s.nextName + 2
  let s1 := (s.emit (.glGenTextures s.glGeneration [tex])).emit
    (.glTexImage2D tex s.ctx.screenWidth s.ctx.screenHeight)
  let s2 := (s1.emit (.glGenRenderbuffers s.glGeneration rb)).emit
    (.glRenderbufferStorage rb s.ctx.screenWidth s.ctx.screenHeight)
  let s3 := (s2.emit (.glGenFramebuffers s.glGeneration fb)).emit (.glBindFramebuffer fb)
  { s3 with
    nextName := s.nextName + 3
    ctx := { s.ctx with
      passthroughTexture := tex, passthroughDepthRenderBuffer := rb,
      passthroughFramebuffer := fb } }

/-- Source: lines 442-479 of `renderNative`, the body of `if (CTX.renderingParamsChanged)`
after the `size == 0` check: the lens distortion and the distortion renderer are
replaced, the eye offsets are read and the view configuration is sent. -/
def applyPendingConfiguration (inp : RenderInput) (s : Sys) : Sys :=
  let s1 := if s.ctx.lensDistortion then s.emit .CardboardLensDistortion_destroy else s
  let s2 := s1.emit (.CardboardLensDistortion_create s.ctx.screenWidth s.ctx.screenHeight)
  let s3 := if s.ctx.distortionRenderer then s2.emit .CardboardDistortionRenderer_destroy
    else s2
  let s4 := s3.emit .CardboardOpenGlEs2DistortionRenderer_create
  let s5 := (s4.emit (.CardboardDistortionRenderer_setMesh .kLeft)).emit
    (.CardboardDistortionRenderer_setMesh .kRight)
  let offsets : ℚ × ℚ := (inp.eyeFromHead12 .kLeft, inp.eyeFromHead12 .kRight)
  let s6 := (s5.emit (.CardboardLensDistortion_getFieldOfView .kLeft)).emit
    (.CardboardLensDistortion_getFieldOfView .kRight)
  let s7 := s6.emit (.alvr_send_views_config (getFov (inp.fieldOfView .kLeft))
    (getFov (inp.fieldOfView .kRight)) (offsets.1 - offsets.2))
  { s7 with ctx := { s.ctx with
      lensDistortion := true, distortionRenderer := true, eyeOffsets := offsets } }

/-- Source: lines 483-488 of `renderNative`, the body of
`if (CTX.renderingParamsChanged && !CTX.glContextRecreated)`. -/
def releaseResources (s : Sys) : Sys :=
  let s1 := cleanupPassthrough (s.emit .alvr_pause_opengl)
  s1.emit (.glDeleteTextures s1.glGeneration [s1.ctx.lobbyTextures.1, s1.ctx.lobbyTextures.2])

/-- Source: lines 490-521 of `renderNative`, the body of
`if (CTX.renderingParamsChanged || CTX.glContextRecreated)`. -/
def allocateResources (s : Sys) : Sys :=
  let s1 :=
    if s.ctx.passthrough then passthroughSetup s
    else
      let l := s.nextName
      let r := s.nextName + 1
      let w := Int.tdiv s.ctx.screenWidth 2
      let h := s.ctx.screenHeight
      let t1 := s.emit (.glGenTextures s.glGeneration [l, r])
      let t2 := (t1.emit (.glTexImage2D l w h)).emit (.glTexImage2D r w h)
      let t3 := t2.emit (.alvr_resume_opengl w h (l, r) 1)
      { t3 with nextName := s.nextName + 2, ctx := { s.ctx with lobbyTextures := (l, r) } }
  { s1 with ctx := { s1.ctx with renderingParamsChanged := false, glContextRecreated := false } }

/-! ## Session events (`alvr_main.cpp`, lines 523-595) -/

/-- Source: lines 566-577 of `renderNative`: the `AlvrStreamConfig` built from the payload
of a stream-started event and the two stream texture handles. -/
def streamConfigOf (config : StreamingStarted) (leftIntHandle rightIntHandle : GLuint) :
    AlvrStreamConfig :=
  { view_resolution_width := config.view_width
    view_resolution_height := config.view_height
    swapchain_textures := (leftIntHandle, rightIntHandle)
    swapchain_length := 1
    enable_foveation := config.enable_foveation
    foveation_center_size_x := config.foveation_center_shift_x
    foveation_center_size_y := config.foveation_center_size_y
    foveation_center_shift_x := config.foveation_center_shift_x
    foveation_center_shift_y := config.foveation_center_shift_y
    foveation_edge_ratio_x := config.foveation_edge_ratio_x
    foveation_edge_ratio_y := config.foveation_edge_ratio_y }

/-- Source: the `ALVR_EVENT_STREAMING_STARTED` branch of the event loop. -/
def handleStreamingStarted (inp : RenderInput) (config : StreamingStarted) (s : Sys) :
    Except Fault Sys :=
  let l := s.nextName
  let r := s.nextName + 1
  let s1 := s.emit (.glGenTextures s.glGeneration [l, r])
  let s2 := (s1.emit (.glTexImage2D l config.view_width config.view_height)).emit
    (.glTexImage2D r config.view_width config.view_height)
  let s3 := (s2.emit (.CardboardLensDistortion_getFieldOfView .kLeft)).emit
    (.CardboardLensDistortion_getFieldOfView .kRight)
  let s4 := s3.emit (.alvr_send_views_config (getFov (inp.fieldOfView .kLeft))
    (getFov (inp.fieldOfView .kRight)) (s.ctx.eyeOffsets.1 - s.ctx.eyeOffsets.2))
  let s5 := s4.emit (.alvr_start_stream_opengl (streamConfigOf config l r))
  let s6 := s5.emit (.store_streaming true)
  let s7 : Sys := { s6 with
    nextName := s.nextName + 2
    ctx := { s.ctx with streamTextures := (l, r), streaming := true } }
  if s7.ctx.inputThread then .error .thread_assigned_while_joinable
  else .ok { s7.emit .thread_spawn with ctx := { s7.ctx with inputThread := true } }

/-- Source: the `ALVR_EVENT_STREAMING_STOPPED` branch of the event loop. The join returns
because the tracking task leaves its loop once it reads `streaming == false`. -/
def handleStreamingStopped (s : Sys) : Except Fault Sys :=
  let s1 : Sys := { s.emit (.store_streaming false) with
    ctx := { s.ctx with streaming := false } }
  if s1.ctx.inputThread then
    let s2 : Sys := { s1.emit .thread_join with ctx := { s1.ctx with inputThread := false } }
    .ok (s2.emit (.glDeleteTextures s2.glGeneration
      [s2.ctx.streamTextures.1, s2.ctx.streamTextures.2]))
  else .error .join_of_non_joinable_thread

/-- Source: the `ALVR_EVENT_HUD_MESSAGE_UPDATED` branch of the event loop. -/
def handleHudMessageUpdated (message_length : Nat) (s : Sys) : Sys :=
  let s1 := (s.emit .alvr_hud_message).emit .alvr_hud_message
  if message_length > 0 then s1.emit .alvr_update_hud_message_opengl else s1

/-- Source: the body of `while (alvr_poll_event(&event))` for one polled event. -/
def handleEvent (inp : RenderInput) (event : AlvrEvent) (s : Sys) : Except Fault Sys :=
  match event with
  | .HUD_MESSAGE_UPDATED message_length => .ok (handleHudMessageUpdated message_length s)
  | .STREAMING_STARTED config => handleStreamingStarted inp config s
  | .STREAMING_STOPPED => handleStreamingStopped s
  | .OTHER => .ok s

/-- Source: `while (alvr_poll_event(&event)) { ... }`, over the events polled in order. -/
def drainEvents (inp : RenderInput) : List AlvrEvent → Sys → Except Fault Sys
  | [], s => .ok s
  | event :: rest, s =>
    match handleEvent inp event s with
    | .error f => .error f
    | .ok s1 => drainEvents inp rest s1

/-! ## Rendering the active view (`alvr_main.cpp`, lines 597-687; `passthrough.cpp`) -/

/-- Source: the initial value of each `viewsDescs[eye]`, lines 597-603. -/
def initialViewsDesc : CardboardEyeTextureDescription :=
  { texture := 0, left_u := 0, right_u := 1, top_v := 1, bottom_v := 0 }

/-- Source: `viewsDescs[eye].left_u = 0.5 * eye; viewsDescs[eye].right_u = 0.5 + 0.5 * eye;`. -/
def setEyeWindow (eye : CardboardEye) (d : CardboardEyeTextureDescription) :
    CardboardEyeTextureDescription :=
  { d with left_u := (1 / 2) * (eye.toNat : ℚ), right_u := 1 / 2 + (1 / 2) * (eye.toNat : ℚ) }

/-- The visual source an `if` branch of phase 4 renders. -/
inductive RenderMode where
  | Lobby
  | Passthrough
  | Streaming
deriving DecidableEq, Repr

/-- Source: the `if (CTX.passthrough)` branch, lines 605-637. -/
def renderPassthrough (s : Sys) (d : CardboardEyeTextureDescription × CardboardEyeTextureDescription) :
    Sys × (CardboardEyeTextureDescription × CardboardEyeTextureDescription) :=
  let half := Int.tdiv s.ctx.screenWidth 2
  let s1 := (s.emit (.glBindFramebuffer s.ctx.passthroughFramebuffer)).emit .glClear
  let s2 := (s1.emit (.glViewport 0 0 half s.ctx.screenHeight)).emit (.glDrawArrays 4)
  let d0 := setEyeWindow .kLeft d.1
  let s3 := (s2.emit (.glViewport half 0 half s.ctx.screenHeight)).emit (.glDrawArrays 4)
  let d1 := setEyeWindow .kRight d.2
  (s3, ({ d0 with texture := s.ctx.passthroughTexture },
        { d1 with texture := s.ctx.passthroughTexture }))

/-- Source: the `else if (CTX.streaming)` branch, lines 638-652; `none` is the early
`return` taken when no frame is ready. -/
def renderStream (inp : RenderInput) (s : Sys)
    (d : CardboardEyeTextureDescription × CardboardEyeTextureDescription) :
    Sys × Option (CardboardEyeTextureDescription × CardboardEyeTextureDescription) :=
  let s1 := s.emit .alvr_get_frame
  if inp.frameTimestampNs == -1 then (s1, none)
  else
    let s2 := (s1.emit (.alvr_render_stream_opengl (0, 0))).emit
      (.alvr_report_submit inp.frameTimestampNs 0)
    (s2, some ({ d.1 with texture := s.ctx.streamTextures.1 },
               { d.2 with texture := s.ctx.streamTextures.2 }))

/-- Source: the body of the lobby loop for one eye, lines 658-667. -/
def lobbyViewInput (pose : Pose) (eyeOffset : ℚ) (fov : AlvrFov ℚ) : AlvrViewInput :=
  let headToEye : Float3 ℚ := { e0 := eyeOffset, e1 := 0, e2 := 0 }
  let rotatedHeadToEye := quatVecMultiply pose.orientation headToEye
  { orientation := pose.orientation
    position :=
      { e0 := pose.position.e0 - rotatedHeadToEye.e0
        e1 := pose.position.e1 - rotatedHeadToEye.e1
        e2 := pose.position.e2 - rotatedHeadToEye.e2 }
    fov := fov
    swapchain_index := 0 }

/-- Source: the final `else` branch, lines 653-673. -/
def renderLobby (inp : RenderInput) (s : Sys)
    (d : CardboardEyeTextureDescription × CardboardEyeTextureDescription) :
    Sys × (CardboardEyeTextureDescription × CardboardEyeTextureDescription) :=
  let timestampNs := toUint64 (inp.bootTimeNano + VSYNC_QUEUE_INTERVAL_NS)
  let pose := getPose inp.headTracker timestampNs
  let s1 := s.emit (.CardboardHeadTracker_getPose (toInt64 timestampNs))
  let v0 := lobbyViewInput pose s.ctx.eyeOffsets.1 (getFov (inp.fieldOfView .kLeft))
  let s2 := s1.emit (.CardboardLensDistortion_getFieldOfView .kLeft)
  let v1 := lobbyViewInput pose s.ctx.eyeOffsets.2 (getFov (inp.fieldOfView .kRight))
  let s3 := s2.emit (.CardboardLensDistortion_getFieldOfView .kRight)
  let s4 := s3.emit (.alvr_render_lobby_opengl v0 v1)
  (s4, ({ d.1 with texture := s.ctx.lobbyTextures.1 },
        { d.2 with texture := s.ctx.lobbyTextures.2 }))

/-- Source: the `if / else if / else` chain of lines 605-673 (phase 4), started from the
initial descriptors; `none` is the early `return` of the streaming branch. -/
def renderActiveView (inp : RenderInput) (s : Sys) :
    Sys × Option (CardboardEyeTextureDescription × CardboardEyeTextureDescription) :=
  let d := (initialViewsDesc, initialViewsDesc)
  if s.ctx.passthrough then
    let r := renderPassthrough s d
    (r.1, some r.2)
  else if s.ctx.streaming then renderStream inp s d
  else
    let r := renderLobby inp s d
    (r.1, some r.2)

/-- Source: `CardboardDistortionRenderer_renderEyeToDisplay(...)`, lines 679-686. -/
def compositeToDisplay (s : Sys)
    (d : CardboardEyeTextureDescription × CardboardEyeTextureDescription) : Sys :=
  s.emit (.CardboardDistortionRenderer_renderEyeToDisplay s.ctx.screenWidth
    s.ctx.screenHeight d.1 d.2)

/-- Source: `Java_viritualisres_phonevr_ALVRActivity_renderNative`, one display refresh.
All pending session events are polled by the event loop of a step that reaches it. -/
def renderNative (inp : RenderInput) (s : Sys) : Except Fault Sys :=
  let q := if s.ctx.renderingParamsChanged then s.emit .CardboardQrCode_getSavedDeviceParams
    else s
  if s.ctx.renderingParamsChanged && inp.savedParamsSize == 0 then .ok q
  else
    let s1 := if q.ctx.renderingParamsChanged then applyPendingConfiguration inp q else q
    let s2 := if s1.ctx.renderingParamsChanged && !s1.ctx.glContextRecreated then
        releaseResources s1 else s1
    let s3 := if s2.ctx.renderingParamsChanged || s2.ctx.glContextRecreated then
        allocateResources s2 else s2
    match drainEvents inp s3.events { s3 with events := [] } with
    | .error f => .error f
    | .ok s4 =>
      match renderActiveView inp s4 with
      | (s5, none) => .ok s5
      | (s5, some d) => .ok (compositeToDisplay s5 d)

/-- The fields of `PassthroughInfo` (`passthrough.h`) that `passthrough_render` reads;
`screenWidth` and `screenHeight` are the integers the two pointers refer to. -/
structure PassthroughInfo where
  passthroughTexture : GLuint
  passthroughFramebuffer : GLuint
  cameraTexture : GLuint
  screenWidth : Int
  screenHeight : Int
deriving DecidableEq, Repr

/-- Source: `passthrough_render` (`passthrough.cpp`, lines 160-195): the calls made and
the two descriptors after the call. -/
def passthrough_render (info : PassthroughInfo)
    (viewsDescs : CardboardEyeTextureDescription × CardboardEyeTextureDescription) :
    List Effect × (CardboardEyeTextureDescription × CardboardEyeTextureDescription) :=
  let half := Int.tdiv info.screenWidth 2
  let calls : List Effect :=
    [.glBindFramebuffer info.passthroughFramebuffer, .glClear,
     .glViewport 0 0 half info.screenHeight, .glDrawArrays 4,
     .glViewport half 0 half info.screenHeight, .glDrawArrays 4]
  let d0 := setEyeWindow .kLeft viewsDescs.1
  let d1 := setEyeWindow .kRight viewsDescs.2
  (calls, ({ d0 with texture := info.passthroughTexture },
           { d1 with texture := info.passthroughTexture }))

/-! ## Runs of the process -/

/-- What can happen to the process: a call from the host, or the network collaborator
queueing a session event. -/
inductive Action where
  | initializeNative (screenWidth screenHeight : Int)
  | destroyNative
  | resumeNative (savedParamsSize : Int)
  | pauseNative
  | setPassthroughActiveNative (activate : Bool)
  | setPassthroughSizeNative (size : ℚ)
  | surfaceCreatedNative
  | setScreenResolutionNative (width height : Int)
  | sendBatteryLevel
  | switchViewerNative
  | renderNative (inp : RenderInput)
  | sessionEvent (event : AlvrEvent)

/-- One action on the process state. -/
def step (a : Action) (s : Sys) : Except Fault Sys :=
  match a with
  | .initializeNative w h => .ok (initializeNative w h s)
  | .destroyNative => .ok (destroyNative s)
  | .resumeNative size => .ok (resumeNative size s)
  | .pauseNative => .ok (pauseNative s)
  | .setPassthroughActiveNative b => .ok (setPassthroughActiveNative b s)
  | .setPassthroughSizeNative size => .ok (setPassthroughSizeNative size s)
  | .surfaceCreatedNative => .ok (surfaceCreatedNative s)
  | .setScreenResolutionNative w h => .ok (setScreenResolutionNative w h s)
  | .sendBatteryLevel => .ok (sendBatteryLevel s)
  | .switchViewerNative => .ok (switchViewerNative s)
  | .renderNative inp => renderNative inp s
  | .sessionEvent e => .ok { s with events := s.events ++ [e] }

/-- A sequence of actions, stopping at the first fault. -/
def run : List Action → Sys → Except Fault Sys
  | [], s => .ok s
  | a :: rest, s =>
    match step a s with
    | .error f => .error f
    | .ok s1 => run rest s1

/-- The process right after load: `NativeContext CTX = {}`, no GL context, nothing
queued, nothing called. -/
def initialSys : Sys := {}

/-! ## Observations on traces -/

/-- The visual source a recorded call renders, if it renders one: the passthrough quad
draw, the stream frame poll and render, the lobby scene render. -/
def Effect.source : Effect → Option RenderMode
  | .glDrawArrays _ => some .Passthrough
  | .alvr_get_frame => some .Streaming
  | .alvr_render_stream_opengl _ => some .Streaming
  | .alvr_render_lobby_opengl _ _ => some .Lobby
  | _ => none

/-- The calls phase 4 adds to the trace. -/
def phase4Calls (inp : RenderInput) (s : Sys) : List Effect :=
  (renderActiveView inp s).1.trace.drop s.trace.length

/-- The distinct visual sources phase 4 renders from. -/
def selectedSources (inp : RenderInput) (s : Sys) : List RenderMode :=
  ((phase4Calls inp s).filterMap Effect.source).dedup

/-- The render mode read off the flags with the priority of the `if` chain of phase 4. -/
def renderModeOf (passthrough streaming : Bool) : RenderMode :=
  if passthrough then .Passthrough else if streaming then .Streaming else .Lobby

/-! ## The tracking task seen through the process state -/

/-- Whether a recorded call starts the tracking task. -/
def Effect.isSpawn : Effect → Bool
  | .thread_spawn => true
  | _ => false

/-- Whether a recorded call joins the tracking task. -/
def Effect.isJoin : Effect → Bool
  | .thread_join => true
  | _ => false

/-- How often the tracking task has been started in a trace. -/
def spawnCount (trace : List Effect) : Nat := trace.countP Effect.isSpawn

/-- How often the tracking task has been joined in a trace. -/
def joinCount (trace : List Effect) : Nat := trace.countP Effect.isJoin

/-- The part of the process state the tracking task depends on: whether a task is live,
the two mode flags, the pending events, and the numbers of starts and joins so far. -/
structure TrackingView where
  inputThread : Bool
  streaming : Bool
  passthrough : Bool
  events : List AlvrEvent
  spawns : Nat
  joins : Nat
deriving DecidableEq, Repr

/-- The tracking view of a process state. -/
def track (s : Sys) : TrackingView :=
  { inputThread := s.ctx.inputThread
    streaming := s.ctx.streaming
    passthrough := s.ctx.passthrough
    events := s.events
    spawns := spawnCount s.trace
    joins := joinCount s.trace }

/-- What handling one event does to the tracking view. -/
def trackEvent (event : AlvrEvent) (t : TrackingView) : Except Fault TrackingView :=
  match event with
  | .STREAMING_STARTED _ =>
    if t.inputThread then .error .thread_assigned_while_joinable
    else .ok { t with streaming := true, inputThread := true, spawns := t.spawns + 1 }
  | .STREAMING_STOPPED =>
    if t.inputThread then
      .ok { t with streaming := false, inputThread := false, joins := t.joins + 1 }
    else .error .join_of_non_joinable_thread
  | _ => .ok t

/-- What the event loop does to the tracking view. -/
def trackDrain : List AlvrEvent → TrackingView → Except Fault TrackingView
  | [], t => .ok t
  | event :: rest, t =>
    match trackEvent event t with
    | .error f => .error f
    | .ok t1 => trackDrain rest t1

/-- What one action does to the tracking view, when a render step reaches its event
loop. -/
def trackStep (a : Action) (t : TrackingView) : Except Fault TrackingView :=
  match a with
  | .renderNative _ => trackDrain t.events { t with events := [] }
  | .sessionEvent e => .ok { t with events := t.events ++ [e] }
  | .setPassthroughActiveNative b => .ok { t with passthrough := b }
  | _ => .ok t

/-- What a sequence of actions does to the tracking view. -/
def trackRun : List Action → TrackingView → Except Fault TrackingView
  | [], t => .ok t
  | a :: rest, t =>
    match trackStep a t with
    | .error f => .error f
    | .ok t1 => trackRun rest t1

/-- A render step passes the calibration check: the saved device parameters it reads are
not empty. Other actions have no such check. -/
def Action.passesCalibration : Action → Prop
  | .renderNative inp => inp.savedParamsSize ≠ 0
  | _ => True

/-- The actions in which the event sequence [StreamStarted, StreamStopped] arrives and is
drained by render steps: render steps with inputs `rs1`, the stream-started event, render
steps `rs2`, the stream-stopped event, render steps `rs3`. -/
def startStopSchedule (config : StreamingStarted) (rs1 rs2 rs3 : List RenderInput) :
    List Action :=
  rs1.map Action.renderNative ++
    (Action.sessionEvent (.STREAMING_STARTED config) :: rs2.map Action.renderNative) ++
    (Action.sessionEvent .STREAMING_STOPPED :: rs3.map Action.renderNative)

/-- A tracking task is live only while the streaming flag is set. -/
def TrackingView.consistent (t : TrackingView) : Prop :=
  t.inputThread = true → t.streaming = true

/-- The actions `as` take the tracking view `t` to `u` without a fault, and the view
after every prefix of `as` is consistent. -/
def TrackedRun (as : List Action) (t u : TrackingView) : Prop :=
  trackRun as t = .ok u ∧
  ∀ pre, pre <+: as → ∃ v, trackRun pre t = .ok v ∧ v.consistent

/-! ## Sample inputs -/

/-- A render input: calibration saved, no stream frame ready, the head looking straight
ahead. -/
def sampleRenderInput : RenderInput :=
  { savedParamsSize := 1
    eyeFromHead12 := fun eye => match eye with
      | .kLeft => 3 / 100
      | .kRight => -(3 / 100)
    fieldOfView := fun _ => { e0 := -1, e1 := 1, e2 := -1, e3 := 1 }
    frameTimestampNs := -1
    bootTimeNano := 0
    headTracker := fun _ => { pos := { e0 := 0, e1 := 0, e2 := 0 },
                              q := { e0 := 0, e1 := 0, e2 := 0, e3 := 1 } } }

/-- A stream-started payload with view 1280 x 720 and distinct foveation values. -/
def sampleStreamingStarted : StreamingStarted :=
  { view_width := 1280
    view_height := 720
    enable_foveation := true
    foveation_center_size_x := 2 / 5
    foveation_center_size_y := 3 / 10
    foveation_center_shift_x := 1 / 10
    foveation_center_shift_y := 1 / 5
    foveation_edge_ratio_x := 4
    foveation_edge_ratio_y := 5 }

/-- The host brings the process up: initialise, create the surface, set the screen
size, choose the passthrough setting, resume and render once. -/
def startupActions (passthrough : Bool) : List Action :=
  [ .initializeNative 1920 1080, .surfaceCreatedNative, .setScreenResolutionNative 1920 1080,
    .setPassthroughActiveNative passthrough, .resumeNative 1, .renderNative sampleRenderInput ]

/-! ## GL object names across context generations -/

/-- The names a call generates, each with the context generation it is generated in. -/
def Effect.generated : Effect → List (GLuint × Nat)
  | .glGenTextures g names => names.map (fun n => (n, g))
  | .glGenRenderbuffers g n => [(n, g)]
  | .glGenFramebuffers g n => [(n, g)]
  | _ => []

/-- The names a call deletes, each with the context generation the call is issued in. -/
def Effect.deleted : Effect → List (GLuint × Nat)
  | .glDeleteTextures g names => names.map (fun n => (n, g))
  | .glDeleteRenderbuffers g n => [(n, g)]
  | .glDeleteFramebuffers g n => [(n, g)]
  | _ => []

/-- The non-null names for which a trace holds a delete call issued in a later context
generation than the one they were generated in: deletes of handles allocated before the
most recent context recreate. -/
def staleDeletes (trace : List Effect) : List GLuint :=
  let generated := (trace.map Effect.generated).flatten
  let deleted := (trace.map Effect.deleted).flatten
  (deleted.filter (fun d =>
    d.1 != 0 && generated.any (fun a => a.1 == d.1 && decide (a.2 < d.2)))).map Prod.fst

/-- Lobby after start-up, then passthrough is switched on, the GL context is recreated
while passthrough is on, and passthrough is switched off again; a render step follows
each change. -/
def recreateDuringPassthrough : List Action :=
  startupActions false ++
    [ .setPassthroughActiveNative true, .renderNative sampleRenderInput,
      .surfaceCreatedNative, .renderNative sampleRenderInput,
      .setPassthroughActiveNative false, .renderNative sampleRenderInput ]

/-- Lobby after start-up, a stream starts, the GL context is recreated while streaming,
then the stream stops. -/
def recreateDuringStreaming : List Action :=
  startupActions false ++
    [ .sessionEvent (.STREAMING_STARTED sampleStreamingStarted),
      .renderNative sampleRenderInput,
      .surfaceCreatedNative, .renderNative sampleRenderInput,
      .sessionEvent .STREAMING_STOPPED, .renderNative sampleRenderInput ]

/-- The stream configurations handed to `alvr_start_stream_opengl` in a trace. -/
def startedConfigs (trace : List Effect) : List AlvrStreamConfig :=
  trace.filterMap (fun e =>
    match e with
    | .alvr_start_stream_opengl c => some c
    | _ => none)

/-- The names passed to `glDeleteTextures` calls in a trace, one list per call. -/
def deletedTextures (trace : List Effect) : List (List GLuint) :=
  trace.filterMap (fun e =>
    match e with
    | .glDeleteTextures _ names => some names
    | _ => none)

/-! ## The phases of a render step -/

/-- A render step gets past the calibration check of lines 432-440: the configuration is
not dirty, or the saved device parameters are not empty. -/
def reachesEventLoop (inp : RenderInput) (s : Sys) : Prop :=
  s.ctx.renderingParamsChanged = true → inp.savedParamsSize ≠ 0

/-- Source: lines 432-480 of `renderNative` past the `size == 0` check (phase 1): when the
configuration is dirty the saved parameters are read and the pending configuration is
applied. -/
def configure (inp : RenderInput) (s : Sys) : Sys :=
  if s.ctx.renderingParamsChanged then
    applyPendingConfiguration inp (s.emit .CardboardQrCode_getSavedDeviceParams)
  else s

/-- Source: lines 432-523 of `renderNative` past the `size == 0` check (phases 1 and 2):
the state in which the event loop starts, the pending events taken off the queue. -/
def prepare (inp : RenderInput) (s : Sys) : Sys :=
  let s1 := configure inp s
  let s2 := if s1.ctx.renderingParamsChanged && !s1.ctx.glContextRecreated then
      releaseResources s1 else s1
  let s3 := if s2.ctx.renderingParamsChanged || s2.ctx.glContextRecreated then
      allocateResources s2 else s2
  { s3 with events := [] }

/-- The calls phases 4 and 5 add to the trace. -/
def finishCalls (inp : RenderInput) (s : Sys) : List Effect :=
  (match renderActiveView inp s with
    | (s5, none) => s5
    | (s5, some d) =>
      s5.emit (.CardboardDistortionRenderer_renderEyeToDisplay s5.ctx.screenWidth
        s5.ctx.screenHeight d.1 d.2)).trace.drop s.trace.length

/-- Source: lines 597-687 of `renderNative` (phases 4 and 5): the active view is rendered
and, unless the streaming branch returned early, composited to the display. -/
def finish (inp : RenderInput) (s : Sys) : Sys :=
  match renderActiveView inp s with
  | (s5, none) => s5
  | (s5, some d) => compositeToDisplay s5 d

/-- The calls of `applyPendingConfiguration`, in order. -/
def lensCalls (inp : RenderInput) (s : Sys) : List Effect :=
  (if s.ctx.lensDistortion then [Effect.CardboardLensDistortion_destroy] else []) ++
  [Effect.CardboardLensDistortion_create s.ctx.screenWidth s.ctx.screenHeight] ++
  (if s.ctx.distortionRenderer then [Effect.CardboardDistortionRenderer_destroy] else []) ++
  [ .CardboardOpenGlEs2DistortionRenderer_create,
    .CardboardDistortionRenderer_setMesh .kLeft,
    .CardboardDistortionRenderer_setMesh .kRight,
    .CardboardLensDistortion_getFieldOfView .kLeft,
    .CardboardLensDistortion_getFieldOfView .kRight,
    .alvr_send_views_config (getFov (inp.fieldOfView .kLeft)) (getFov (inp.fieldOfView .kRight))
      (inp.eyeFromHead12 .kLeft - inp.eyeFromHead12 .kRight) ]

/-- The passthrough cleanup: the delete calls for the depth renderbuffer, the framebuffer
and the texture of the passthrough target, each only when its handle is not null. -/
def cleanupCalls (s : Sys) : List Effect :=
  (if s.ctx.passthroughDepthRenderBuffer ≠ 0 then
    [Effect.glDeleteRenderbuffers s.glGeneration s.ctx.passthroughDepthRenderBuffer] else []) ++
  (if s.ctx.passthroughFramebuffer ≠ 0 then
    [Effect.glDeleteFramebuffers s.glGeneration s.ctx.passthroughFramebuffer] else []) ++
  (if s.ctx.passthroughTexture ≠ 0 then
    [Effect.glDeleteTextures s.glGeneration [s.ctx.passthroughTexture]] else [])

/-- The release of the previous resources: ALVR's GL side is paused, the passthrough
target is cleaned up and the two lobby textures are deleted. -/
def releaseCalls (s : Sys) : List Effect :=
  [Effect.alvr_pause_opengl] ++ cleanupCalls s ++
  [Effect.glDeleteTextures s.glGeneration [s.ctx.lobbyTextures.1, s.ctx.lobbyTextures.2]]

/-- The allocation of the passthrough offscreen target: a texture and a depth
renderbuffer of the screen size and a framebuffer, under three new names. -/
def passthroughTargetCalls (s : Sys) : List Effect :=
  [ .glGenTextures s.glGeneration [s.nextName],
    .glTexImage2D s.nextName s.ctx.screenWidth s.ctx.screenHeight,
    .glGenRenderbuffers s.glGeneration (s.nextName + 1),
    .glRenderbufferStorage (s.nextName + 1) s.ctx.screenWidth s.ctx.screenHeight,
    .glGenFramebuffers s.glGeneration (s.nextName + 2),
    .glBindFramebuffer (s.nextName + 2) ]

/-- The allocation of the pair of lobby eye textures, each of size
`screenWidth / 2` x `screenHeight`, handed to ALVR's GL side with swapchain length 1. -/
def lobbyTextureCalls (s : Sys) : List Effect :=
  [ .glGenTextures s.glGeneration [s.nextName, s.nextName + 1],
    .glTexImage2D s.nextName (Int.tdiv s.ctx.screenWidth 2) s.ctx.screenHeight,
    .glTexImage2D (s.nextName + 1) (Int.tdiv s.ctx.screenWidth 2) s.ctx.screenHeight,
    .alvr_resume_opengl (Int.tdiv s.ctx.screenWidth 2) s.ctx.screenHeight
      (s.nextName, s.nextName + 1) 1 ]

/-- The allocation for the active mode: the passthrough target when passthrough is on,
the lobby eye textures otherwise. -/
def allocationCalls (s : Sys) : List Effect :=
  if s.ctx.passthrough then passthroughTargetCalls s else lobbyTextureCalls s

/-- Whether an event starts or stops the stream. -/
def AlvrEvent.isStreamEvent : AlvrEvent → Bool
  | .STREAMING_STARTED _ => true
  | .STREAMING_STOPPED => true
  | _ => false

/-- Whether a recorded call starts a stream, stores the streaming flag, or starts or joins
the tracking task; only the stream-started and stream-stopped handlers make such calls. -/
def Effect.isSessionCall : Effect → Bool
  | .alvr_start_stream_opengl _ => true
  | .store_streaming _ => true
  | .thread_spawn => true
  | .thread_join => true
  | _ => false

/-- Whether a recorded call generates texture names or allocates texture storage. -/
def Effect.allocatesTexture : Effect → Bool
  | .glGenTextures _ _ => true
  | .glTexImage2D _ _ _ => true
  | _ => false

/-- The calls of the event loop for events that neither start nor stop the stream. -/
def hudCalls : List AlvrEvent → List Effect
  | [] => []
  | .HUD_MESSAGE_UPDATED n :: rest =>
    [Effect.alvr_hud_message, Effect.alvr_hud_message] ++
      (if n > 0 then [Effect.alvr_update_hud_message_opengl] else []) ++ hudCalls rest
  | _ :: rest => hudCalls rest

/-- The calls of the stream-started handler in state `s`, in order. -/
def streamStartCalls (inp : RenderInput) (config : StreamingStarted) (s : Sys) : List Effect :=
  [ .glGenTextures s.glGeneration [s.nextName, s.nextName + 1],
    .glTexImage2D s.nextName config.view_width config.view_height,
    .glTexImage2D (s.nextName + 1) config.view_width config.view_height,
    .CardboardLensDistortion_getFieldOfView .kLeft,
    .CardboardLensDistortion_getFieldOfView .kRight,
    .alvr_send_views_config (getFov (inp.fieldOfView .kLeft)) (getFov (inp.fieldOfView .kRight))
      (s.ctx.eyeOffsets.1 - s.ctx.eyeOffsets.2),
    .alvr_start_stream_opengl (streamConfigOf config s.nextName (s.nextName + 1)),
    .store_streaming true,
    .thread_spawn ]

/-- The calls of the stream-stopped handler in state `s`, in order. -/
def streamStopCalls (s : Sys) : List Effect :=
  [ .store_streaming false,
    .thread_join,
    .glDeleteTextures s.glGeneration [s.ctx.streamTextures.1, s.ctx.streamTextures.2] ]

/-- The calls of phases 1 and 2 of a render step in state `s`. -/
def prepareCalls (inp : RenderInput) (s : Sys) : List Effect :=
  (if s.ctx.renderingParamsChanged then
    Effect.CardboardQrCode_getSavedDeviceParams :: lensCalls inp s else []) ++
  (if s.ctx.renderingParamsChanged && !s.ctx.glContextRecreated then
    releaseCalls s else []) ++
  (if s.ctx.renderingParamsChanged || s.ctx.glContextRecreated then
    allocationCalls s else [])

/-- The fresh process with the sample stream-started event pending. -/
def startedQueued : Sys :=
  { initialSys with events := [.STREAMING_STARTED sampleStreamingStarted] }

/-- A process that is streaming: the tracking task is live, the stream textures are
`4, 5`, and a stream-stopped event is pending. -/
def stoppedQueued : Sys :=
  { initialSys with
    ctx := { initialSys.ctx with
      renderingParamsChanged := false, lensDistortion := true, distortionRenderer := true,
      streaming := true, inputThread := true, streamTextures := (4, 5),
      lobbyTextures := (2, 3) }
    glGeneration := 1
    nextName := 6
    events := [.STREAMING_STOPPED] }

/-- Lobby after start-up, then a stream-started and a stream-stopped event arrive before
the next render step. -/
def startAndStopQueued : List Action :=
  startupActions false ++
    [ .sessionEvent (.STREAMING_STARTED sampleStreamingStarted),
      .sessionEvent .STREAMING_STOPPED ]

/-- Lobby after start-up, a stream starts and is rendered once, then a second
stream-started event arrives. -/
def startedWhileStreaming : List Action :=
  startupActions false ++
    [ .sessionEvent (.STREAMING_STARTED sampleStreamingStarted),
      .renderNative sampleRenderInput,
      .sessionEvent (.STREAMING_STARTED sampleStreamingStarted) ]

/-- Lobby after start-up, a stream starts and is rendered once, then a stream-stopped and
a stream-started event arrive before the next render step. -/
def stopAndRestartQueued : List Action :=
  startupActions false ++
    [ .sessionEvent (.STREAMING_STARTED sampleStreamingStarted),
      .renderNative sampleRenderInput,
      .sessionEvent .STREAMING_STOPPED,
      .sessionEvent (.STREAMING_STARTED sampleStreamingStarted) ]

/-! ## Reachable states and the states in which events are handled -/

/-- Whether an action is the host's destroy call. -/
def Action.isDestroy : Action → Bool
  | .destroyNative => true
  | _ => false

/-- The states the process reaches from the initial context by host calls other than
destroy, by session events arriving, and by render steps. -/
def Reachable (s : Sys) : Prop :=
  ∃ as : List Action, (∀ a ∈ as, a.isDestroy = false) ∧ run as initialSys = .ok s

/-- Source: `while (alvr_poll_event(&event)) { ... }`: each polled event with the state
in which the loop body handles it. -/
def handlingStates (inp : RenderInput) : List AlvrEvent → Sys → List (AlvrEvent × Sys)
  | [], _ => []
  | event :: rest, s =>
    (event, s) ::
      match handleEvent inp event s with
      | .error _ => []
      | .ok s1 => handlingStates inp rest s1

/-- Whether a recorded call sends a view configuration. -/
def Effect.isViewsConfig : Effect → Bool
  | .alvr_send_views_config _ _ _ => true
  | _ => false

/-- Whether a view configuration has been sent in a trace. -/
def viewsConfigSent (trace : List Effect) : Bool := trace.any Effect.isViewsConfig

/-- The configuration is dirty or a lens calibration exists, and a lens calibration
exists only after a view configuration has been sent. -/
def Calibrated (s : Sys) : Prop :=
  (s.ctx.renderingParamsChanged = true ∨ s.ctx.lensDistortion = true) ∧
  (s.ctx.lensDistortion = true → viewsConfigSent s.trace = true)

/-- What the event loop and phases 4 and 5 leave untouched: the two configuration flags
and the lens calibration; the trace only grows. -/
def Framed (s s1 : Sys) : Prop :=
  s1.ctx.renderingParamsChanged = s.ctx.renderingParamsChanged ∧
  s1.ctx.glContextRecreated = s.ctx.glContextRecreated ∧
  s1.ctx.lensDistortion = s.ctx.lensDistortion ∧
  s.trace <+: s1.trace

/-! ## The tracking loop (`alvr_main.cpp`, lines 230-252) -/

/-- Source: `(uint64_t) (1e9 / 60.f / 3)`, the truncation of `10^9 / 60 / 3`: the number
of nanoseconds added to the deadline in each iteration. -/
def TRACKING_PERIOD_NS : Int := ⌊(1000000000 : ℚ) / 60 / 3⌋

/-- What one iteration of the tracking loop reads from its environment: the boot time,
the head prediction offset ALVR reports, and how long the work of the iteration takes
(in nanoseconds of the steady clock). -/
structure TrackingIteration where
  bootTimeNano : Int
  headPredictionOffsetNs : Int
  workNs : Nat
deriving DecidableEq, Repr

/-- The fields of `AlvrDeviceMotion` the loop fills, with the target timestamp passed to
`alvr_send_tracking`. -/
structure TrackingSample where
  targetTimestampNs : Int
  position : Float3 ℚ
  orientation : AlvrQuat ℚ
deriving DecidableEq, Repr

/-- The state of the tracking task: the steady clock, the `deadline` variable and the
samples handed to `alvr_send_tracking` so far. -/
structure InputThreadState where
  now : Int
  deadline : Int
  sent : List TrackingSample
deriving DecidableEq, Repr

/-- Source: the body of `while (CTX.streaming)` in `inputThread`: a pose is predicted and
sent, the deadline advances by the period (an `int64_t` count of nanoseconds), and the
task sleeps until the deadline, so the clock is then at the deadline or later. -/
def inputThreadIteration (tracker : Int → TrackerReply) (it : TrackingIteration)
    (st : InputThreadState) : InputThreadState :=
  let targetTimestampNs := toUint64 (it.bootTimeNano + it.headPredictionOffsetNs)
  let headPose := getPose tracker targetTimestampNs
  let sample : TrackingSample :=
    { targetTimestampNs := targetTimestampNs
      position := headPose.position
      orientation := headPose.orientation }
  let deadline := toInt64 (st.deadline + TRACKING_PERIOD_NS)
  { now := max (st.now + it.workNs) deadline
    deadline := deadline
    sent := st.sent ++ [sample] }

/-- Source: `inputThread`, for the iterations run while `CTX.streaming` reads true. -/
def inputThreadLoop (tracker : Int → TrackerReply) :
    List TrackingIteration → InputThreadState → InputThreadState
  | [], st => st
  | it :: rest, st => inputThreadLoop tracker rest (inputThreadIteration tracker it st)

/-- Source: `inputThread`: the deadline starts at `steady_clock::now()`. -/
def inputThread (tracker : Int → TrackerReply) (start : Int)
    (iterations : List TrackingIteration) : InputThreadState :=
  inputThreadLoop tracker iterations { now := start, deadline := start, sent := [] }

/-- The sample render input with an empty saved-parameter buffer. -/
def uncalibratedRenderInput : RenderInput :=
  { sampleRenderInput with savedParamsSize := 0 }

/-- Whether a recorded call belongs to a release of GPU resources: the pause of ALVR's
GL side or a GL delete call. -/
def Effect.releases : Effect → Bool
  | .alvr_pause_opengl => true
  | .glDeleteTextures _ _ => true
  | .glDeleteRenderbuffers _ _ => true
  | .glDeleteFramebuffers _ _ => true
  | _ => false

/-- Whether a recorded call belongs to an allocation of GPU resources: a GL call that
generates names or allocates storage, or the resume of ALVR's GL side on new textures. -/
def Effect.allocates : Effect → Bool
  | .glGenTextures _ _ => true
  | .glGenRenderbuffers _ _ => true
  | .glGenFramebuffers _ _ => true
  | .glTexImage2D _ _ _ => true
  | .glRenderbufferStorage _ _ _ => true
  | .alvr_resume_opengl _ _ _ _ => true
  | _ => false

/-! ## Theorems -/

/-- C1: over exact arithmetic (any commutative ring, in particular the rationals and the
reals), for every quaternion `q` with `x^2 + y^2 + z^2 + w^2 = 1` and every vector `v`,
rotating `v` by `q` and then by `inverseQuat q` gives back `v`. -/
theorem quatVecMultiply_inverseQuat_cancel {α : Type} [CommRing α]
    (q : AlvrQuat α) (v : Float3 α)
    (hq : q.x ^ 2 + q.y ^ 2 + q.z ^ 2 + q.w ^ 2 = 1) :
    quatVecMultiply (inverseQuat q) (quatVecMultiply q v) = v := by
  obtain ⟨x, y, z, w⟩ := q
  obtain ⟨a, b, c⟩ := v
  simp only [quatVecMultiply, inverseQuat, cross] at hq ⊢
  congr 1
  · linear_combination (-4 * (y * (x * b - y * a) - z * (z * a - x * c))) * hq
  · linear_combination (-4 * (z * (y * c - z * b) - x * (x * b - y * a))) * hq
  · linear_combination (-4 * (x * (z * a - x * c) - y * (y * c - z * b))) * hq

/-- Witness of C1 at the unit quaternion `(3/5, 0, 4/5, 0)` over the rationals. -/
theorem quatVecMultiply_inverseQuat_cancel_witness :
    ((3 / 5 : ℚ) ^ 2 + (0 : ℚ) ^ 2 + (4 / 5 : ℚ) ^ 2 + (0 : ℚ) ^ 2 = 1) ∧
    quatVecMultiply (inverseQuat (⟨3 / 5, 0, 4 / 5, 0⟩ : AlvrQuat ℚ))
      (quatVecMultiply ⟨3 / 5, 0, 4 / 5, 0⟩ ⟨1, 2, 3⟩) = (⟨1, 2, 3⟩ : Float3 ℚ) :=
  ⟨by norm_num, quatVecMultiply_inverseQuat_cancel ⟨3 / 5, 0, 4 / 5, 0⟩ ⟨1, 2, 3⟩ (by norm_num)⟩

/-- C2: for every unit quaternion `q = (r, w)` and every vector `v`, `quatVecMultiply q v`
is `v + 2 * (w * (r × v) + r × (r × v))`; it is the vector part of the Hamilton product
`q * (v, 0) * inverseQuat q` (whose scalar part is zero), and it has the squared length
of `v`. -/
theorem quatVecMultiply_is_rotation {α : Type} [CommRing α]
    (q : AlvrQuat α) (v : Float3 α)
    (hq : q.x ^ 2 + q.y ^ 2 + q.z ^ 2 + q.w ^ 2 = 1) :
    quatVecMultiply q v = rotateSpec q v ∧
    quatVecMultiply q v = (hamilton (hamilton q (pureQuat v)) (inverseQuat q)).vectorPart ∧
    (hamilton (hamilton q (pureQuat v)) (inverseQuat q)).w = 0 ∧
    (quatVecMultiply q v).normSq = v.normSq := by
  obtain ⟨x, y, z, w⟩ := q
  obtain ⟨a, b, c⟩ := v
  simp only [quatVecMultiply, rotateSpec, hamilton, pureQuat, inverseQuat, cross,
    AlvrQuat.vectorPart, Float3.normSq] at hq ⊢
  refine ⟨trivial, ?_, by ring, ?_⟩
  · congr 1
    · linear_combination (-a) * hq
    · linear_combination (-b) * hq
    · linear_combination (-c) * hq
  · linear_combination
      (4 * ((y * c - z * b) ^ 2 + (z * a - x * c) ^ 2 + (x * b - y * a) ^ 2)) * hq

/-- Witness of C2 at the unit quaternion `(3/5, 0, 4/5, 0)` over the rationals. -/
theorem quatVecMultiply_is_rotation_witness :
    ((3 / 5 : ℚ) ^ 2 + (0 : ℚ) ^ 2 + (4 / 5 : ℚ) ^ 2 + (0 : ℚ) ^ 2 = 1) ∧
    (quatVecMultiply (⟨3 / 5, 0, 4 / 5, 0⟩ : AlvrQuat ℚ) ⟨1, 2, 3⟩).normSq
      = (⟨1, 2, 3⟩ : Float3 ℚ).normSq :=
  ⟨by norm_num,
   (quatVecMultiply_is_rotation (⟨3 / 5, 0, 4 / 5, 0⟩ : AlvrQuat ℚ) ⟨1, 2, 3⟩
      (by norm_num)).2.2.2⟩

/-- C3, as stated, fails: for the raw values `f = (1, 1, 1, 1)` the field of view returned
by `getFov` has `left = -1` and `down = -1`. -/
theorem getFov_nonneg_counterexample :
    ¬ (0 ≤ (getFov (⟨1, 1, 1, 1⟩ : Float4 ℚ)).left ∧ 0 ≤ (getFov (⟨1, 1, 1, 1⟩ : Float4 ℚ)).right ∧
       0 ≤ (getFov (⟨1, 1, 1, 1⟩ : Float4 ℚ)).up ∧ 0 ≤ (getFov (⟨1, 1, 1, 1⟩ : Float4 ℚ)).down) := by
  norm_num [getFov]

/-- C3, amended: `getFov` returns `left = -f[0]`, `right = f[1]`, `up = f[3]`,
`down = -f[2]`, so its four components are all non-negative exactly when
`f[0] ≤ 0`, `f[1] ≥ 0`, `f[2] ≤ 0` and `f[3] ≥ 0`. -/
theorem getFov_nonneg_iff {α : Type} [LinearOrderedCommRing α] (f : Float4 α) :
    getFov f = { left := -f.e0, right := f.e1, up := f.e3, down := -f.e2 } ∧
    ((0 ≤ (getFov f).left ∧ 0 ≤ (getFov f).right ∧ 0 ≤ (getFov f).up ∧ 0 ≤ (getFov f).down) ↔
      (f.e0 ≤ 0 ∧ 0 ≤ f.e1 ∧ f.e2 ≤ 0 ∧ 0 ≤ f.e3)) := by
  refine ⟨rfl, ?_⟩
  simp only [getFov, Left.nonneg_neg_iff]
  tauto

/-- C4: for every state, whatever the passthrough and streaming flags, the calls of
phase 4 render from exactly one visual source: Passthrough when the passthrough flag is
set (also when streaming is set), otherwise Streaming when the streaming flag is set,
otherwise Lobby. -/
theorem renderActiveView_selects_one_source (inp : RenderInput) (s : Sys)
    (passthrough streaming : Bool) :
    selectedSources inp
      { s with ctx := { s.ctx with passthrough := passthrough, streaming := streaming } }
      = [renderModeOf passthrough streaming] ∧
    renderModeOf true streaming = .Passthrough ∧
    renderModeOf false true = .Streaming ∧
    renderModeOf false false = .Lobby := by
  refine ⟨?_, rfl, rfl, rfl⟩
  cases passthrough <;> cases streaming <;>
    by_cases hf : inp.frameTimestampNs = -1 <;>
    simp [selectedSources, phase4Calls, renderActiveView, renderPassthrough, renderStream,
      renderLobby, renderModeOf, Sys.emit, Effect.source, hf, List.append_assoc]

/-! ### The tracking view commutes with the code -/

theorem track_emit (s : Sys) (e : Effect) :
    track (s.emit e) =
      { track s with
        spawns := (track s).spawns + (if e.isSpawn then 1 else 0)
        joins := (track s).joins + (if e.isJoin then 1 else 0) } := by
  simp [track, Sys.emit, spawnCount, joinCount, List.countP_append, List.countP_cons]

theorem track_cleanupPassthrough (s : Sys) : track (cleanupPassthrough s) = track s := by
  unfold cleanupPassthrough
  simp only []
  split_ifs <;> simp [track, Sys.emit, spawnCount, joinCount, List.countP_append,
    List.countP_cons, Effect.isSpawn, Effect.isJoin]

theorem track_passthroughSetup (s : Sys) : track (passthroughSetup s) = track s := by
  simp [passthroughSetup, track, Sys.emit, spawnCount, joinCount, List.countP_append,
    List.countP_cons, Effect.isSpawn, Effect.isJoin]

theorem track_applyPendingConfiguration (inp : RenderInput) (s : Sys) :
    track (applyPendingConfiguration inp s) = track s := by
  unfold applyPendingConfiguration
  simp only []
  split_ifs <;> simp [track, Sys.emit, spawnCount, joinCount, List.countP_append,
    List.countP_cons, Effect.isSpawn, Effect.isJoin]

theorem track_releaseResources (s : Sys) : track (releaseResources s) = track s := by
  unfold releaseResources
  simp only [track_emit, track_cleanupPassthrough, Effect.isSpawn, Effect.isJoin]
  simp

theorem track_allocateResources (s : Sys) : track (allocateResources s) = track s := by
  unfold allocateResources
  simp only []
  split_ifs
  · have h := track_passthroughSetup s
    simp only [track] at h ⊢
    simpa using h
  · simp [track, Sys.emit, spawnCount, joinCount, List.countP_append,
      List.countP_cons, Effect.isSpawn, Effect.isJoin]

theorem track_handleEvent (inp : RenderInput) (event : AlvrEvent) (s : Sys) :
    Except.map track (handleEvent inp event s) = trackEvent event (track s) := by
  cases event with
  | HUD_MESSAGE_UPDATED n =>
    simp only [handleEvent, handleHudMessageUpdated, trackEvent, Except.map]
    split_ifs <;> simp [track, Sys.emit, spawnCount, joinCount, List.countP_append,
      List.countP_cons, Effect.isSpawn, Effect.isJoin]
  | STREAMING_STARTED config =>
    simp only [handleEvent, handleStreamingStarted, trackEvent]
    by_cases h : s.ctx.inputThread = true
    · simp [h, track, Except.map]
    · simp [h, track, Except.map, Sys.emit, spawnCount, joinCount, List.countP_append,
        List.countP_cons, Effect.isSpawn, Effect.isJoin]
  | STREAMING_STOPPED =>
    simp only [handleEvent, handleStreamingStopped, trackEvent]
    by_cases h : s.ctx.inputThread = true
    · simp [h, track, Except.map, Sys.emit, spawnCount, joinCount, List.countP_append,
        List.countP_cons, Effect.isSpawn, Effect.isJoin]
    · simp [h, track, Except.map]
  | OTHER => simp [handleEvent, trackEvent, Except.map]

theorem track_drainEvents (inp : RenderInput) (events : List AlvrEvent) (s : Sys) :
    Except.map track (drainEvents inp events s) = trackDrain events (track s) := by
  induction events generalizing s with
  | nil => simp [drainEvents, trackDrain, Except.map]
  | cons e rest ih =>
    have h := track_handleEvent inp e s
    simp only [drainEvents, trackDrain]
    cases hs : handleEvent inp e s with
    | error f =>
      rw [hs] at h
      simp only [Except.map] at h
      simp [← h, Except.map]
    | ok s1 =>
      rw [hs] at h
      simp only [Except.map] at h
      simp only [← h]
      exact ih s1

theorem track_renderActiveView (inp : RenderInput) (s : Sys) :
    track (renderActiveView inp s).1 = track s := by
  unfold renderActiveView renderStream
  simp only []
  split_ifs <;> simp [renderPassthrough, renderLobby, track, Sys.emit, spawnCount, joinCount,
    List.countP_append, List.countP_cons, Effect.isSpawn, Effect.isJoin]

theorem track_compositeToDisplay (s : Sys)
    (d : CardboardEyeTextureDescription × CardboardEyeTextureDescription) :
    track (compositeToDisplay s d) = track s := by
  simp [compositeToDisplay, track_emit, Effect.isSpawn, Effect.isJoin]

theorem track_with_events (s : Sys) (es : List AlvrEvent) :
    track { s with events := es } = { track s with events := es } := by
  simp [track]

theorem track_events (s : Sys) : (track s).events = s.events := rfl

/-- A render step that passes the calibration check acts on the tracking view as its
event loop does. -/
theorem track_renderNative (inp : RenderInput) (s : Sys) (hsize : inp.savedParamsSize ≠ 0) :
    Except.map track (renderNative inp s) =
      trackDrain (track s).events { track s with events := [] } := by
  unfold renderNative
  simp only [hsize, beq_iff_eq, Bool.and_false, if_false, Bool.false_eq_true]
  generalize hq : (if s.ctx.renderingParamsChanged = true then
    s.emit .CardboardQrCode_getSavedDeviceParams else s) = q
  have tq : track q = track s := by
    rw [← hq]; split_ifs <;> simp [track_emit, Effect.isSpawn, Effect.isJoin]
  generalize h1 : (if q.ctx.renderingParamsChanged = true then
    applyPendingConfiguration inp q else q) = s1
  have t1 : track s1 = track s := by
    rw [← h1]; split_ifs <;> simp [track_applyPendingConfiguration, tq]
  generalize h2 : (if (s1.ctx.renderingParamsChanged && !s1.ctx.glContextRecreated) = true then
    releaseResources s1 else s1) = s2
  have t2 : track s2 = track s := by
    rw [← h2]; split_ifs <;> simp [track_releaseResources, t1]
  generalize h3 : (if (s2.ctx.renderingParamsChanged || s2.ctx.glContextRecreated) = true then
    allocateResources s2 else s2) = s3
  have t3 : track s3 = track s := by
    rw [← h3]; split_ifs <;> simp [track_allocateResources, t2]
  have hd := track_drainEvents inp s3.events { s3 with events := [] }
  rw [track_with_events, t3] at hd
  have he : s3.events = (track s).events := by rw [← t3]; rfl
  rw [he] at hd ⊢
  rw [← hd]
  cases hdr : drainEvents inp (track s).events { s3 with events := [] } with
  | error f => simp [Except.map, hsize]
  | ok s4 =>
    simp only [Except.map]
    have t5 := track_renderActiveView inp s4
    rcases hr : renderActiveView inp s4 with ⟨s5, _ | d⟩
    · rw [hr] at t5
      simp only [] at t5
      simp [t5, hsize]
    · rw [hr] at t5
      simp only [] at t5
      simp [track_compositeToDisplay, t5, hsize]

theorem track_step (a : Action) (s : Sys) (h : a.passesCalibration) :
    Except.map track (step a s) = trackStep a (track s) := by
  cases a with
  | renderNative inp => exact track_renderNative inp s h
  | resumeNative size =>
    simp only [step, trackStep, resumeNative, Except.map]
    split_ifs <;> simp [track, Sys.emit, spawnCount, joinCount, List.countP_append,
      List.countP_cons, Effect.isSpawn, Effect.isJoin]
  | _ =>
    simp [step, trackStep, Except.map, track, Sys.emit, spawnCount, joinCount,
      List.countP_append, List.countP_cons, Effect.isSpawn, Effect.isJoin, initializeNative,
      destroyNative, pauseNative, setPassthroughActiveNative, setPassthroughSizeNative,
      surfaceCreatedNative, setScreenResolutionNative, sendBatteryLevel, switchViewerNative]

theorem track_run (as : List Action) (s : Sys) (h : ∀ a ∈ as, a.passesCalibration) :
    Except.map track (run as s) = trackRun as (track s) := by
  induction as generalizing s with
  | nil => simp [run, trackRun, Except.map]
  | cons a rest ih =>
    have ha := track_step a s (h a (List.mem_cons_self a rest))
    simp only [run, trackRun]
    cases hs : step a s with
    | error f =>
      rw [hs] at ha
      simp only [Except.map] at ha
      simp [← ha, Except.map]
    | ok s1 =>
      rw [hs] at ha
      simp only [Except.map] at ha
      simp only [← ha]
      exact ih s1 (fun b hb => h b (List.mem_cons_of_mem a hb))

/-- A run whose tracking view is known ended without a fault in a state with that view. -/
theorem run_ok_of_track (as : List Action) (s : Sys) (u : TrackingView)
    (h : ∀ a ∈ as, a.passesCalibration) (hu : trackRun as (track s) = .ok u) :
    ∃ s1, run as s = .ok s1 ∧ track s1 = u := by
  have hr := track_run as s h
  rw [hu] at hr
  cases hs : run as s with
  | error f => rw [hs] at hr; simp [Except.map] at hr
  | ok s1 =>
    rw [hs] at hr
    simp only [Except.map, Except.ok.injEq] at hr
    exact ⟨s1, rfl, hr⟩

/-! ### Runs of the tracking view -/

theorem trackRun_append (a b : List Action) (t : TrackingView) :
    trackRun (a ++ b) t =
      match trackRun a t with
      | .error f => .error f
      | .ok t1 => trackRun b t1 := by
  induction a generalizing t with
  | nil => simp [trackRun]
  | cons x rest ih =>
    simp only [List.cons_append, trackRun]
    cases trackStep x t with
    | error f => rfl
    | ok t1 => exact ih t1

theorem TrackedRun.nil (t : TrackingView) (h : t.consistent) : TrackedRun [] t t := by
  refine ⟨rfl, fun pre hpre => ?_⟩
  rw [List.prefix_nil] at hpre
  subst hpre
  exact ⟨t, rfl, h⟩

theorem TrackedRun.cons (a : Action) (as : List Action) (t t1 u : TrackingView)
    (h : t.consistent) (hstep : trackStep a t = .ok t1) (hrest : TrackedRun as t1 u) :
    TrackedRun (a :: as) t u := by
  refine ⟨by simp [trackRun, hstep, hrest.1], fun pre hpre => ?_⟩
  rcases List.prefix_cons_iff.mp hpre with rfl | ⟨p, rfl, hp⟩
  · exact ⟨t, rfl, h⟩
  · obtain ⟨v, hv, hc⟩ := hrest.2 p hp
    exact ⟨v, by simp [trackRun, hstep, hv], hc⟩

theorem TrackedRun.append (a b : List Action) (t t1 u : TrackingView)
    (ha : TrackedRun a t t1) (hb : TrackedRun b t1 u) : TrackedRun (a ++ b) t u := by
  refine ⟨by rw [trackRun_append, ha.1]; exact hb.1, fun pre hpre => ?_⟩
  rcases List.prefix_or_prefix_of_prefix hpre (List.prefix_append a b) with h | ⟨l, rfl⟩
  · exact ha.2 pre h
  · have hl : l <+: b := (List.prefix_append_right_inj a).mp hpre
    obtain ⟨v, hv, hc⟩ := hb.2 l hl
    exact ⟨v, by rw [trackRun_append, ha.1]; exact hv, hc⟩

/-- Render steps with nothing queued leave the tracking view as it is. -/
theorem TrackedRun.renders (rs : List RenderInput) (t : TrackingView)
    (h : t.consistent) (he : t.events = []) :
    TrackedRun (rs.map Action.renderNative) t t := by
  induction rs with
  | nil => exact TrackedRun.nil t h
  | cons r rest ih =>
    refine TrackedRun.cons _ _ t t t h ?_ ih
    cases t
    simp only at he
    simp [trackStep, he, trackDrain]

/-- The tracking view along the start/stop schedule, from a view with no live task, the
streaming flag off and nothing queued: one start and one join. -/
theorem trackedRun_startStop (config : StreamingStarted) (rs1 rs2 : List RenderInput)
    (r : RenderInput) (rs3 : List RenderInput) (t : TrackingView)
    (ht : t.inputThread = false) (hs : t.streaming = false) (he : t.events = []) :
    TrackedRun (startStopSchedule config rs1 rs2 (r :: rs3)) t
      { t with spawns := t.spawns + 1, joins := t.joins + 1 } := by
  obtain ⟨it, st, p, ev, sp, jn⟩ := t
  simp only at ht hs he
  subst ht hs he
  have c0 : ∀ (es : List AlvrEvent) (a b : Nat),
      (⟨false, false, p, es, a, b⟩ : TrackingView).consistent := by
    intro es a b h; simp at h
  have c1 : ∀ (es : List AlvrEvent) (a b : Nat),
      (⟨true, true, p, es, a, b⟩ : TrackingView).consistent := by
    intro es a b _; rfl
  unfold startStopSchedule
  cases rs2 with
  | nil =>
    refine TrackedRun.append _ _ _ ⟨false, false, p, [.STREAMING_STARTED config], sp, jn⟩ _
      (TrackedRun.append _ _ _ ⟨false, false, p, [], sp, jn⟩ _
        (TrackedRun.renders rs1 _ (c0 _ _ _) rfl) ?_) ?_
    · exact TrackedRun.cons _ _ _ _ _ (c0 _ _ _) rfl (TrackedRun.nil _ (c0 _ _ _))
    · refine TrackedRun.cons _ _ _
        ⟨false, false, p, [.STREAMING_STARTED config, .STREAMING_STOPPED], sp, jn⟩ _
        (c0 _ _ _) rfl ?_
      refine TrackedRun.cons _ _ _ ⟨false, false, p, [], sp + 1, jn + 1⟩ _ (c0 _ _ _) ?_
        (TrackedRun.renders rs3 _ (c0 _ _ _) rfl)
      simp [trackStep, trackDrain, trackEvent]
  | cons r2 rest2 =>
    refine TrackedRun.append _ _ _ ⟨true, true, p, [], sp + 1, jn⟩ _
      (TrackedRun.append _ _ _ ⟨false, false, p, [], sp, jn⟩ _
        (TrackedRun.renders rs1 _ (c0 _ _ _) rfl) ?_) ?_
    · refine TrackedRun.cons _ _ _ ⟨false, false, p, [.STREAMING_STARTED config], sp, jn⟩ _
        (c0 _ _ _) rfl ?_
      refine TrackedRun.cons _ _ _ ⟨true, true, p, [], sp + 1, jn⟩ _ (c0 _ _ _) ?_
        (TrackedRun.renders rest2 _ (c1 _ _ _) rfl)
      simp [trackStep, trackDrain, trackEvent]
    · refine TrackedRun.cons _ _ _ ⟨true, true, p, [.STREAMING_STOPPED], sp + 1, jn⟩ _
        (c1 _ _ _) rfl ?_
      refine TrackedRun.cons _ _ _ ⟨false, false, p, [], sp + 1, jn + 1⟩ _ (c1 _ _ _) ?_
        (TrackedRun.renders rs3 _ (c0 _ _ _) rfl)
      simp [trackStep, trackDrain, trackEvent]

theorem startStopSchedule_passesCalibration (config : StreamingStarted)
    (rs1 rs2 rs3 : List RenderInput)
    (hcal : ∀ inp ∈ rs1 ++ rs2 ++ rs3, inp.savedParamsSize ≠ 0) :
    ∀ a ∈ startStopSchedule config rs1 rs2 rs3, a.passesCalibration := by
  intro a ha
  simp only [startStopSchedule, List.mem_append, List.mem_map, List.mem_cons] at ha
  rcases ha with (⟨inp, hm, rfl⟩ | rfl | ⟨inp, hm, rfl⟩) | rfl | ⟨inp, hm, rfl⟩
  · exact hcal inp (by simp [hm])
  · trivial
  · exact hcal inp (by simp [hm])
  · trivial
  · exact hcal inp (by simp [hm])

/-- C5, as stated, fails when passthrough is on: after the host has started the process
with passthrough active and a render step has drained a stream-started event, the tracking
task is running while the render mode selected from the flags is Passthrough. -/
theorem tracking_outside_streaming_mode_counterexample :
    ∃ s, run (startupActions true ++
        [.sessionEvent (.STREAMING_STARTED sampleStreamingStarted),
         .renderNative sampleRenderInput]) initialSys = .ok s ∧
      s.ctx.inputThread = true ∧
      renderModeOf s.ctx.passthrough s.ctx.streaming = .Passthrough ∧
      renderModeOf s.ctx.passthrough s.ctx.streaming ≠ .Streaming := by
  refine ⟨_, rfl, ?_, ?_, ?_⟩ <;> decide

/-- C5, amended: from every state with no tracking task, the streaming flag off and no
event pending (any passthrough setting), when the events StreamStarted and StreamStopped
arrive in this order among render steps that pass the calibration check, with a render
step after the second event, the run ends without a fault, the tracking task has been
started exactly once and joined exactly once, and in every state along the run the
tracking task is running only while the streaming flag is set; so with passthrough off
it runs only while the selected render mode is Streaming. -/
theorem tracking_started_and_joined_once (s0 : Sys) (config : StreamingStarted)
    (rs1 rs2 rs3 : List RenderInput)
    (hthread : s0.ctx.inputThread = false) (hstream : s0.ctx.streaming = false)
    (hqueue : s0.events = [])
    (hcal : ∀ inp ∈ rs1 ++ rs2 ++ rs3, inp.savedParamsSize ≠ 0)
    (hlast : rs3 ≠ []) :
    (∃ sf, run (startStopSchedule config rs1 rs2 rs3) s0 = .ok sf ∧
      spawnCount sf.trace = spawnCount s0.trace + 1 ∧
      joinCount sf.trace = joinCount s0.trace + 1 ∧
      sf.ctx.inputThread = false) ∧
    ∀ pre, pre <+: startStopSchedule config rs1 rs2 rs3 →
      ∃ s, run pre s0 = .ok s ∧
        (s.ctx.inputThread = true → s.ctx.streaming = true) ∧
        (s.ctx.inputThread = true → s.ctx.passthrough = false →
          renderModeOf s.ctx.passthrough s.ctx.streaming = .Streaming) := by
  obtain ⟨r, rest3, rfl⟩ := List.exists_cons_of_ne_nil hlast
  have hall := startStopSchedule_passesCalibration config rs1 rs2 (r :: rest3) hcal
  have htr := trackedRun_startStop config rs1 rs2 r rest3 (track s0) hthread hstream hqueue
  constructor
  · obtain ⟨sf, hrun, hview⟩ := run_ok_of_track _ s0 _ hall htr.1
    refine ⟨sf, hrun, ?_, ?_, ?_⟩
    · have := congrArg TrackingView.spawns hview
      simpa [track] using this
    · have := congrArg TrackingView.joins hview
      simpa [track] using this
    · have := congrArg TrackingView.inputThread hview
      simpa [track, hthread] using this
  · intro pre hpre
    obtain ⟨v, hv, hc⟩ := htr.2 pre hpre
    obtain ⟨s, hrun, hview⟩ :=
      run_ok_of_track pre s0 v (fun a ha => hall a (hpre.subset ha)) hv
    subst hview
    refine ⟨s, hrun, hc, ?_⟩
    intro h1 h2
    have h3 : s.ctx.streaming = true := hc h1
    simp [renderModeOf, h2, h3]

/-- Witness of C5 (amended): the fresh process, the two events with one render step after
each. -/
theorem tracking_started_and_joined_once_witness :
    (initialSys.ctx.inputThread = false ∧ initialSys.ctx.streaming = false ∧
      initialSys.events = [] ∧ sampleRenderInput.savedParamsSize ≠ 0) ∧
    (∃ sf, run (startStopSchedule sampleStreamingStarted [] [sampleRenderInput]
        [sampleRenderInput]) initialSys = .ok sf ∧
      spawnCount sf.trace = spawnCount initialSys.trace + 1 ∧
      joinCount sf.trace = joinCount initialSys.trace + 1 ∧
      sf.ctx.inputThread = false) ∧
    ∀ pre, pre <+: startStopSchedule sampleStreamingStarted [] [sampleRenderInput]
        [sampleRenderInput] →
      ∃ s, run pre initialSys = .ok s ∧
        (s.ctx.inputThread = true → s.ctx.streaming = true) ∧
        (s.ctx.inputThread = true → s.ctx.passthrough = false →
          renderModeOf s.ctx.passthrough s.ctx.streaming = .Streaming) :=
  ⟨⟨rfl, rfl, rfl, by decide⟩,
   tracking_started_and_joined_once initialSys sampleStreamingStarted [] [sampleRenderInput]
    [sampleRenderInput] rfl rfl rfl (by simp [sampleRenderInput]) (List.cons_ne_nil _ _)⟩

/-- C6: the code issues delete calls for handles allocated before the most recent context
recreate. In the run `recreateDuringPassthrough` the lobby textures `2, 3` are generated
in context generation 1 and `glDeleteTextures` is called on them in generation 2; in the
run `recreateDuringStreaming` the same happens to the stream textures `4, 5`. A start-up
alone issues no such delete. -/
theorem delete_after_context_recreate :
    (∃ s, run recreateDuringPassthrough initialSys = .ok s ∧
      Effect.glGenTextures 1 [2, 3] ∈ s.trace ∧
      Effect.glDeleteTextures 2 [2, 3] ∈ s.trace ∧
      staleDeletes s.trace = [2, 3]) ∧
    (∃ s, run recreateDuringStreaming initialSys = .ok s ∧
      Effect.glGenTextures 1 [4, 5] ∈ s.trace ∧
      Effect.glDeleteTextures 2 [4, 5] ∈ s.trace ∧
      staleDeletes s.trace = [4, 5]) ∧
    (∃ s, run (startupActions false) initialSys = .ok s ∧ staleDeletes s.trace = []) := by
  refine ⟨⟨_, rfl, ?_, ?_, ?_⟩, ⟨_, rfl, ?_, ?_, ?_⟩, ⟨_, rfl, ?_⟩⟩ <;> decide

/-- C7: the stream configuration built for a stream-started event copies every field from
the same-named field of the event and sets the swapchain length to 1, except
`foveation_center_size_x`, which is copied from `foveation_center_shift_x`: for the sample
event (center size x `2/5`, center shift x `1/10`) the configuration handed to
`alvr_start_stream_opengl` has center size x `1/10`. -/
theorem streamConfig_center_size_x_from_shift_x :
    (∀ (config : StreamingStarted) (l r : GLuint),
      (streamConfigOf config l r).view_resolution_width = config.view_width ∧
      (streamConfigOf config l r).view_resolution_height = config.view_height ∧
      (streamConfigOf config l r).swapchain_length = 1 ∧
      (streamConfigOf config l r).enable_foveation = config.enable_foveation ∧
      (streamConfigOf config l r).foveation_center_size_x = config.foveation_center_shift_x ∧
      (streamConfigOf config l r).foveation_center_size_y = config.foveation_center_size_y ∧
      (streamConfigOf config l r).foveation_center_shift_x = config.foveation_center_shift_x ∧
      (streamConfigOf config l r).foveation_center_shift_y = config.foveation_center_shift_y ∧
      (streamConfigOf config l r).foveation_edge_ratio_x = config.foveation_edge_ratio_x ∧
      (streamConfigOf config l r).foveation_edge_ratio_y = config.foveation_edge_ratio_y) ∧
    (∃ s, handleEvent sampleRenderInput (.STREAMING_STARTED sampleStreamingStarted) initialSys
        = .ok s ∧
      startedConfigs s.trace = [streamConfigOf sampleStreamingStarted 1 2] ∧
      (streamConfigOf sampleStreamingStarted 1 2).foveation_center_size_x = 1 / 10 ∧
      sampleStreamingStarted.foveation_center_size_x = 2 / 5 ∧
      (streamConfigOf sampleStreamingStarted 1 2).foveation_center_size_x ≠
        sampleStreamingStarted.foveation_center_size_x) := by
  refine ⟨fun config l r => ⟨rfl, rfl, rfl, rfl, rfl, rfl, rfl, rfl, rfl, rfl⟩,
    ⟨_, rfl, ?_, rfl, rfl, ?_⟩⟩
  · simp [startedConfigs, Sys.emit, initialSys]
  · norm_num [streamConfigOf, sampleStreamingStarted]

/-- C8, as stated, fails: from the fresh process, handling the same stream-started event
twice in succession does not complete; the first handling leaves a live tracking task and
the second one aborts on assigning a new thread over it. -/
theorem handleEvent_twice_counterexample :
    ¬ ∃ s1 s2,
      handleEvent sampleRenderInput (.STREAMING_STARTED sampleStreamingStarted) initialSys
        = .ok s1 ∧
      handleEvent sampleRenderInput (.STREAMING_STARTED sampleStreamingStarted) s1 = .ok s2 := by
  rintro ⟨s1, s2, h1, h2⟩
  simp only [handleEvent, handleStreamingStarted, initialSys, Sys.emit, Bool.false_eq_true,
    if_false, Except.ok.injEq] at h1
  subst h1
  simp [handleEvent, handleStreamingStarted, Sys.emit] at h2

/-- C8, amended: in every state, handling HudMessageUpdated twice in succession completes
and leaves the context and the GL name supply as handling it once (it changes neither),
with no tracking task started or joined and no texture deleted. StreamStarted and
StreamStopped are not idempotent: in a state without a live tracking task, handling
StreamStarted completes with one task started and handling it again aborts the process
(a thread is assigned over the live one); in a state with a live task, handling
StreamStopped completes with the task joined and handling it again fails on the join of
the task that is no longer joinable. -/
theorem handleEvent_twice (inp : RenderInput) (s : Sys) :
    (∀ n, ∃ s1 s2,
      handleEvent inp (.HUD_MESSAGE_UPDATED n) s = .ok s1 ∧
      handleEvent inp (.HUD_MESSAGE_UPDATED n) s1 = .ok s2 ∧
      s1.ctx = s.ctx ∧ s2.ctx = s1.ctx ∧ s2.nextName = s1.nextName ∧
      spawnCount s2.trace = spawnCount s.trace ∧ joinCount s2.trace = joinCount s.trace ∧
      deletedTextures s2.trace = deletedTextures s.trace) ∧
    (∀ config, s.ctx.inputThread = false →
      ∃ s1, handleEvent inp (.STREAMING_STARTED config) s = .ok s1 ∧
        s1.ctx.inputThread = true ∧ spawnCount s1.trace = spawnCount s.trace + 1 ∧
        handleEvent inp (.STREAMING_STARTED config) s1
          = .error .thread_assigned_while_joinable) ∧
    (s.ctx.inputThread = true →
      ∃ s1, handleEvent inp .STREAMING_STOPPED s = .ok s1 ∧
        s1.ctx.inputThread = false ∧ joinCount s1.trace = joinCount s.trace + 1 ∧
        handleEvent inp .STREAMING_STOPPED s1 = .error .join_of_non_joinable_thread) := by
  refine ⟨fun n => ?_, fun config h => ?_, fun h => ?_⟩
  · refine ⟨_, _, rfl, rfl, ?_⟩
    simp only [handleHudMessageUpdated]
    split_ifs <;> simp [Sys.emit, spawnCount, joinCount, deletedTextures, List.countP_append,
      List.countP_cons, List.filterMap_append, Effect.isSpawn, Effect.isJoin]
  · simp [handleEvent, handleStreamingStarted, h, Sys.emit, spawnCount, List.countP_append,
      List.countP_cons, Effect.isSpawn]
  · simp [handleEvent, handleStreamingStopped, h, Sys.emit, joinCount, List.countP_append,
      List.countP_cons, Effect.isJoin]

/-- Witness of C8 (amended): the fresh process has no live task, so the stream-started
case applies to it. -/
theorem handleEvent_twice_witness :
    initialSys.ctx.inputThread = false ∧
    ∃ s1, handleEvent sampleRenderInput (.STREAMING_STARTED sampleStreamingStarted) initialSys
        = .ok s1 ∧
      s1.ctx.inputThread = true ∧ spawnCount s1.trace = spawnCount initialSys.trace + 1 ∧
      handleEvent sampleRenderInput (.STREAMING_STARTED sampleStreamingStarted) s1
        = .error .thread_assigned_while_joinable :=
  ⟨rfl, (handleEvent_twice sampleRenderInput initialSys).2.1 sampleStreamingStarted rfl⟩

/-- C9: after the passthrough render, in the inline branch of `renderNative` as in
`passthrough_render`, the left-eye descriptor has `left_u = 0` and `right_u = 1/2`, the
right-eye descriptor has `left_u = 1/2` and `right_u = 1`, both carry the passthrough
texture, and the `v` range of each descriptor is the one it had before; in `renderNative`
with the passthrough flag set these are the descriptors phase 4 produces, with the
initial `v` range `top_v = 1`, `bottom_v = 0`. -/
theorem passthrough_uv_windows (inp : RenderInput) (s : Sys) (info : PassthroughInfo)
    (d : CardboardEyeTextureDescription × CardboardEyeTextureDescription) :
    ((renderPassthrough s d).2.1.left_u = 0 ∧ (renderPassthrough s d).2.1.right_u = 1 / 2 ∧
      (renderPassthrough s d).2.2.left_u = 1 / 2 ∧ (renderPassthrough s d).2.2.right_u = 1 ∧
      (renderPassthrough s d).2.1.texture = s.ctx.passthroughTexture ∧
      (renderPassthrough s d).2.2.texture = s.ctx.passthroughTexture ∧
      (renderPassthrough s d).2.1.top_v = d.1.top_v ∧
      (renderPassthrough s d).2.1.bottom_v = d.1.bottom_v ∧
      (renderPassthrough s d).2.2.top_v = d.2.top_v ∧
      (renderPassthrough s d).2.2.bottom_v = d.2.bottom_v) ∧
    ((passthrough_render info d).2.1.left_u = 0 ∧ (passthrough_render info d).2.1.right_u = 1 / 2 ∧
      (passthrough_render info d).2.2.left_u = 1 / 2 ∧ (passthrough_render info d).2.2.right_u = 1 ∧
      (passthrough_render info d).2.1.texture = info.passthroughTexture ∧
      (passthrough_render info d).2.2.texture = info.passthroughTexture ∧
      (passthrough_render info d).2.1.top_v = d.1.top_v ∧
      (passthrough_render info d).2.1.bottom_v = d.1.bottom_v ∧
      (passthrough_render info d).2.2.top_v = d.2.top_v ∧
      (passthrough_render info d).2.2.bottom_v = d.2.bottom_v) ∧
    (renderActiveView inp { s with ctx := { s.ctx with passthrough := true } }).2 =
      some ({ texture := s.ctx.passthroughTexture, left_u := 0, right_u := 1 / 2,
              top_v := 1, bottom_v := 0 },
            { texture := s.ctx.passthroughTexture, left_u := 1 / 2, right_u := 1,
              top_v := 1, bottom_v := 0 }) := by
  refine ⟨?_, ?_, ?_⟩
  · simp [renderPassthrough, setEyeWindow, CardboardEye.toNat]
    norm_num
  · simp [passthrough_render, setEyeWindow, CardboardEye.toNat]
    norm_num
  · simp [renderActiveView, renderPassthrough, setEyeWindow, CardboardEye.toNat,
      initialViewsDesc]
    norm_num

/-- C10: for all non-negative `jint` values `screenWidth`, `screenHeight`,
`initializeNative` passes downstream `viewWidth = max(screenWidth, screenHeight) / 2`
(integer division) and `viewHeight = min(screenWidth, screenHeight)`; the two values are
the same when width and height are swapped, and 1920 x 1080 gives 960 x 1080. -/
theorem initializeNative_view_size (screenWidth screenHeight : Int) (s : Sys)
    (hw : 0 ≤ screenWidth) (hh : 0 ≤ screenHeight)
    (hw31 : screenWidth < 2 ^ 31) (hh31 : screenHeight < 2 ^ 31) :
    (initializeNative screenWidth screenHeight s).trace =
      s.trace ++ [.alvr_initialize_core (viewWidth screenWidth screenHeight)
        (viewHeight screenWidth screenHeight), .CardboardHeadTracker_create] ∧
    (viewWidth screenWidth screenHeight : Int) = max screenWidth screenHeight / 2 ∧
    (viewHeight screenWidth screenHeight : Int) = min screenWidth screenHeight ∧
    viewWidth screenHeight screenWidth = viewWidth screenWidth screenHeight ∧
    viewHeight screenHeight screenWidth = viewHeight screenWidth screenHeight ∧
    viewWidth 1920 1080 = 960 ∧ viewHeight 1920 1080 = 1080 := by
  refine ⟨by simp [initializeNative, Sys.emit], ?_, ?_, ?_, ?_, by decide, by decide⟩
  · have hm : 0 ≤ max screenWidth screenHeight := le_max_of_le_left hw
    have hlt : max screenWidth screenHeight < 2 ^ 31 := max_lt hw31 hh31
    simp only [viewWidth, toUint32]
    rw [Int.tdiv_eq_ediv hm (by norm_num)]
    have h0 : 0 ≤ max screenWidth screenHeight / 2 := Int.ediv_nonneg hm (by norm_num)
    have h1 : max screenWidth screenHeight / 2 < 2 ^ 32 := by omega
    rw [Int.emod_eq_of_lt h0 h1, Int.toNat_of_nonneg h0]
  · have hm : 0 ≤ min screenWidth screenHeight := le_min hw hh
    have hlt : min screenWidth screenHeight < 2 ^ 32 := by
      have := min_le_left screenWidth screenHeight
      omega
    simp only [viewHeight, toUint32]
    rw [Int.emod_eq_of_lt hm hlt, Int.toNat_of_nonneg hm]
  · simp only [viewWidth, max_comm]
  · simp only [viewHeight, min_comm]

/-- Witness of C10 at 1920 x 1080. -/
theorem initializeNative_view_size_witness :
    ((0 : Int) ≤ 1920 ∧ (0 : Int) ≤ 1080 ∧ (1920 : Int) < 2 ^ 31 ∧ (1080 : Int) < 2 ^ 31) ∧
    (viewWidth 1920 1080 : Int) = max 1920 1080 / 2 ∧
    (viewHeight 1920 1080 : Int) = min 1920 1080 :=
  ⟨by decide,
   (initializeNative_view_size 1920 1080 initialSys (by decide) (by decide) (by decide)
      (by decide)).2.1,
   (initializeNative_view_size 1920 1080 initialSys (by decide) (by decide) (by decide)
      (by decide)).2.2.1⟩

/-! ### The phases of a render step in normal form -/

theorem applyPendingConfiguration_eq (inp : RenderInput) (s : Sys) :
    applyPendingConfiguration inp s =
      { s with
        ctx := { s.ctx with
          lensDistortion := true, distortionRenderer := true,
          eyeOffsets := (inp.eyeFromHead12 .kLeft, inp.eyeFromHead12 .kRight) }
        trace := s.trace ++ lensCalls inp s } := by
  unfold applyPendingConfiguration lensCalls
  simp only []
  split_ifs <;> simp [Sys.emit]

theorem cleanupPassthrough_eq (s : Sys) :
    cleanupPassthrough s =
      { s with
        ctx := { s.ctx with
          passthroughDepthRenderBuffer := 0, passthroughFramebuffer := 0,
          passthroughTexture := 0 }
        trace := s.trace ++ cleanupCalls s } := by
  rcases s with ⟨⟨⟩, g, n, ev, tr⟩
  unfold cleanupPassthrough cleanupCalls
  simp only [Sys.emit]
  split_ifs <;> simp_all

theorem releaseResources_eq (s : Sys) :
    releaseResources s =
      { s with
        ctx := { s.ctx with
          passthroughDepthRenderBuffer := 0, passthroughFramebuffer := 0,
          passthroughTexture := 0 }
        trace := s.trace ++ releaseCalls s } := by
  unfold releaseResources
  simp only [cleanupPassthrough_eq]
  simp [Sys.emit, releaseCalls, cleanupCalls]

theorem allocateResources_eq (s : Sys) :
    allocateResources s =
      { s with
        ctx :=
          if s.ctx.passthrough then
            { s.ctx with
              passthroughTexture := s.nextName
              passthroughDepthRenderBuffer := s.nextName + 1
              passthroughFramebuffer := s.nextName + 2
              renderingParamsChanged := false, glContextRecreated := false }
          else
            { s.ctx with
              lobbyTextures := (s.nextName, s.nextName + 1)
              renderingParamsChanged := false, glContextRecreated := false }
        nextName := if s.ctx.passthrough then s.nextName + 3 else s.nextName + 2
        trace := s.trace ++ allocationCalls s } := by
  unfold allocateResources allocationCalls
  by_cases hp : s.ctx.passthrough = true <;>
    simp [hp, passthroughSetup, passthroughTargetCalls, lobbyTextureCalls, Sys.emit]

theorem handleStreamingStarted_eq (inp : RenderInput) (config : StreamingStarted) (s : Sys)
    (hidle : s.ctx.inputThread = false) :
    handleStreamingStarted inp config s =
      .ok { s with
        nextName := s.nextName + 2
        ctx := { s.ctx with
          streamTextures := (s.nextName, s.nextName + 1), streaming := true,
          inputThread := true }
        trace := s.trace ++ streamStartCalls inp config s } := by
  simp [handleStreamingStarted, streamStartCalls, Sys.emit, hidle]

theorem handleStreamingStopped_eq (s : Sys) (hlive : s.ctx.inputThread = true) :
    handleStreamingStopped s =
      .ok { s with
        ctx := { s.ctx with streaming := false, inputThread := false }
        trace := s.trace ++ streamStopCalls s } := by
  simp [handleStreamingStopped, streamStopCalls, Sys.emit, hlive]

theorem drainEvents_append (inp : RenderInput) (a b : List AlvrEvent) (s : Sys) :
    drainEvents inp (a ++ b) s =
      match drainEvents inp a s with
      | .error f => .error f
      | .ok s1 => drainEvents inp b s1 := by
  induction a generalizing s with
  | nil => simp [drainEvents]
  | cons e rest ih =>
    simp only [List.cons_append, drainEvents]
    cases handleEvent inp e s with
    | error f => rfl
    | ok s1 => exact ih s1

/-- Events that neither start nor stop the stream only add their HUD calls. -/
theorem drainEvents_hud (inp : RenderInput) (es : List AlvrEvent) (s : Sys)
    (h : ∀ e ∈ es, e.isStreamEvent = false) :
    drainEvents inp es s = .ok { s with trace := s.trace ++ hudCalls es } := by
  induction es generalizing s with
  | nil => simp [drainEvents, hudCalls]
  | cons e rest ih =>
    have hrest : ∀ x ∈ rest, x.isStreamEvent = false :=
      fun x hx => h x (List.mem_cons_of_mem e hx)
    have he := h e (List.mem_cons_self e rest)
    cases e with
    | HUD_MESSAGE_UPDATED n =>
      simp only [drainEvents, handleEvent, handleHudMessageUpdated, ih _ hrest, hudCalls]
      split_ifs <;> simp [Sys.emit]
    | STREAMING_STARTED c => simp [AlvrEvent.isStreamEvent] at he
    | STREAMING_STOPPED => simp [AlvrEvent.isStreamEvent] at he
    | OTHER => simp only [drainEvents, handleEvent, ih _ hrest, hudCalls]

theorem hudCalls_quiet (es : List AlvrEvent) :
    ∀ e ∈ hudCalls es, e.isSessionCall = false ∧ e.allocatesTexture = false ∧
      e.source = none := by
  induction es with
  | nil => simp [hudCalls]
  | cons x rest ih =>
    cases x with
    | HUD_MESSAGE_UPDATED n =>
      intro e he
      simp only [hudCalls, List.mem_append, List.mem_cons, List.mem_singleton,
        List.not_mem_nil, or_false] at he
      rcases he with ((rfl | rfl) | he) | he
      · simp [Effect.isSessionCall, Effect.allocatesTexture, Effect.source]
      · simp [Effect.isSessionCall, Effect.allocatesTexture, Effect.source]
      · split_ifs at he
        · simp only [List.mem_singleton] at he
          subst he
          simp [Effect.isSessionCall, Effect.allocatesTexture, Effect.source]
        · simp at he
      · exact ih e he
    | STREAMING_STARTED c => simpa [hudCalls] using ih
    | STREAMING_STOPPED => simpa [hudCalls] using ih
    | OTHER => simpa [hudCalls] using ih

/-- Phases 4 and 5 only add calls: they change no context field, GL name or queue. -/
theorem finish_eq (inp : RenderInput) (s : Sys) :
    finish inp s = { s with trace := s.trace ++ finishCalls inp s } := by
  unfold finish finishCalls renderActiveView renderStream
  by_cases hp : s.ctx.passthrough = true
  · simp [hp, renderPassthrough, compositeToDisplay, Sys.emit]
  · by_cases hs : s.ctx.streaming = true
    · by_cases hf : inp.frameTimestampNs = -1
      · simp [hp, hs, hf, Sys.emit]
      · simp [hp, hs, hf, compositeToDisplay, Sys.emit]
    · simp [hp, hs, renderLobby, compositeToDisplay, Sys.emit]

/-- The calls of phases 4 and 5 start or stop nothing, allocate no texture, and render
from the one source selected by the flags. -/
theorem finishCalls_spec (inp : RenderInput) (s : Sys) :
    (∀ e ∈ finishCalls inp s, e.isSessionCall = false ∧ e.allocatesTexture = false) ∧
    ((finishCalls inp s).filterMap Effect.source).dedup =
      [renderModeOf s.ctx.passthrough s.ctx.streaming] := by
  unfold finishCalls renderActiveView renderStream
  by_cases hp : s.ctx.passthrough = true
  · simp [hp, renderPassthrough, Sys.emit, renderModeOf, Effect.isSessionCall,
      Effect.allocatesTexture, Effect.source]
  · by_cases hs : s.ctx.streaming = true
    · by_cases hf : inp.frameTimestampNs = -1
      · simp [hp, hs, hf, Sys.emit, renderModeOf, Effect.isSessionCall,
          Effect.allocatesTexture, Effect.source]
      · simp [hp, hs, hf, Sys.emit, renderModeOf, Effect.isSessionCall,
          Effect.allocatesTexture, Effect.source]
    · simp [hp, hs, renderLobby, Sys.emit, renderModeOf, Effect.isSessionCall,
        Effect.allocatesTexture, Effect.source]

/-- The calls of phases 1 and 2: the configuration calls when the configuration is dirty,
the release when it is dirty and the context was not recreated, the allocation when it
is dirty or the context was recreated. -/
theorem prepare_trace (inp : RenderInput) (s : Sys) :
    (prepare inp s).trace =
      s.trace ++
      (if s.ctx.renderingParamsChanged then
        Effect.CardboardQrCode_getSavedDeviceParams :: lensCalls inp s else []) ++
      (if s.ctx.renderingParamsChanged && !s.ctx.glContextRecreated then
        releaseCalls s else []) ++
      (if s.ctx.renderingParamsChanged || s.ctx.glContextRecreated then
        allocationCalls s else []) := by
  unfold prepare configure
  by_cases hd : s.ctx.renderingParamsChanged = true <;>
    by_cases hr : s.ctx.glContextRecreated = true <;>
    simp [hd, hr, applyPendingConfiguration_eq, releaseResources_eq, allocateResources_eq,
      Sys.emit, lensCalls, releaseCalls, cleanupCalls, allocationCalls, passthroughTargetCalls,
      lobbyTextureCalls]

/-- What phases 1 and 2 leave of the context: both flags cleared, a lens distortion
exists if the configuration was dirty or one existed, and the session fields, the screen
size and the GL context generation are as before; the queue has been taken. -/
theorem prepare_frame (inp : RenderInput) (s : Sys) :
    (prepare inp s).ctx.renderingParamsChanged = false ∧
    (prepare inp s).ctx.glContextRecreated = false ∧
    (prepare inp s).ctx.lensDistortion = (s.ctx.renderingParamsChanged || s.ctx.lensDistortion) ∧
    (prepare inp s).ctx.inputThread = s.ctx.inputThread ∧
    (prepare inp s).ctx.streaming = s.ctx.streaming ∧
    (prepare inp s).ctx.passthrough = s.ctx.passthrough ∧
    (prepare inp s).ctx.streamTextures = s.ctx.streamTextures ∧
    (prepare inp s).ctx.screenWidth = s.ctx.screenWidth ∧
    (prepare inp s).ctx.screenHeight = s.ctx.screenHeight ∧
    (prepare inp s).glGeneration = s.glGeneration ∧
    (prepare inp s).events = [] := by
  unfold prepare configure
  by_cases hd : s.ctx.renderingParamsChanged = true <;>
    by_cases hr : s.ctx.glContextRecreated = true <;>
    by_cases hp : s.ctx.passthrough = true <;>
    simp [hd, hr, hp, applyPendingConfiguration_eq, releaseResources_eq, allocateResources_eq,
      Sys.emit]

theorem prepare_queue (inp : RenderInput) (s : Sys) :
    (let s1 := configure inp s
     let s2 := if s1.ctx.renderingParamsChanged && !s1.ctx.glContextRecreated then
        releaseResources s1 else s1
     let s3 := if s2.ctx.renderingParamsChanged || s2.ctx.glContextRecreated then
        allocateResources s2 else s2
     s3.events) = s.events := by
  unfold configure
  by_cases hd : s.ctx.renderingParamsChanged = true <;>
    by_cases hr : s.ctx.glContextRecreated = true <;>
    simp [hd, hr, applyPendingConfiguration_eq, releaseResources_eq, allocateResources_eq,
      Sys.emit]

/-- A render step that gets past the calibration check is phases 1 and 2, then the event
loop over the pending events, then phases 4 and 5. -/
theorem renderNative_eq (inp : RenderInput) (s : Sys) (h : reachesEventLoop inp s) :
    renderNative inp s =
      Except.map (finish inp) (drainEvents inp s.events (prepare inp s)) := by
  have hq := prepare_queue inp s
  unfold reachesEventLoop at h
  unfold renderNative
  have hc : (s.ctx.renderingParamsChanged && inp.savedParamsSize == 0) = false := by
    by_cases hd : s.ctx.renderingParamsChanged = true
    · simp [hd, h hd]
    · simp [hd]
  simp only [hc, Bool.false_eq_true, if_false]
  have hcfg : (if (if s.ctx.renderingParamsChanged = true then
        s.emit .CardboardQrCode_getSavedDeviceParams else s).ctx.renderingParamsChanged = true
      then applyPendingConfiguration inp (if s.ctx.renderingParamsChanged = true then
        s.emit .CardboardQrCode_getSavedDeviceParams else s)
      else (if s.ctx.renderingParamsChanged = true then
        s.emit .CardboardQrCode_getSavedDeviceParams else s)) = configure inp s := by
    unfold configure
    by_cases hd : s.ctx.renderingParamsChanged = true <;> simp [hd, Sys.emit]
  rw [hcfg]
  simp only [] at hq
  rw [hq]
  unfold prepare finish
  simp only []
  cases drainEvents inp s.events _ with
  | error f => rfl
  | ok s4 =>
    simp only [Except.map]
    rcases renderActiveView inp s4 with ⟨s5, _ | d⟩ <;> rfl

theorem prepare_trace_calls (inp : RenderInput) (s : Sys) :
    (prepare inp s).trace = s.trace ++ prepareCalls inp s := by
  rw [prepare_trace, prepareCalls]
  simp only [List.append_assoc]

theorem lensCalls_quiet (inp : RenderInput) (s : Sys) :
    (lensCalls inp s).all (fun e => !e.isSessionCall && e.source.isNone) = true := by
  unfold lensCalls
  split_ifs <;> simp [Effect.isSessionCall, Effect.source]

theorem releaseCalls_quiet (s : Sys) :
    (releaseCalls s).all (fun e => !e.isSessionCall && e.source.isNone) = true := by
  unfold releaseCalls cleanupCalls
  split_ifs <;> simp [Effect.isSessionCall, Effect.source]

theorem allocationCalls_quiet (s : Sys) :
    (allocationCalls s).all (fun e => !e.isSessionCall && e.source.isNone) = true := by
  unfold allocationCalls passthroughTargetCalls lobbyTextureCalls
  split_ifs <;> simp [Effect.isSessionCall, Effect.source]

/-- The calls of phases 1 and 2 start or stop nothing and render from no source. -/
theorem prepareCalls_quiet (inp : RenderInput) (s : Sys) :
    ∀ e ∈ prepareCalls inp s, e.isSessionCall = false ∧ e.source = none := by
  have h : (prepareCalls inp s).all (fun e => !e.isSessionCall && e.source.isNone) = true := by
    unfold prepareCalls
    simp only [List.all_append, Bool.and_eq_true]
    refine ⟨⟨?_, ?_⟩, ?_⟩
    · split_ifs
      · simp only [List.all_cons, lensCalls_quiet, Bool.and_true]
        simp [Effect.isSessionCall, Effect.source]
      · rfl
    · split_ifs
      · exact releaseCalls_quiet s
      · rfl
    · split_ifs
      · exact allocationCalls_quiet s
      · rfl
  intro e he
  have := List.all_eq_true.mp h e he
  simpa using this

theorem Framed.refl (s : Sys) : Framed s s :=
  ⟨rfl, rfl, rfl, List.prefix_refl _⟩

theorem Framed.trans {a b c : Sys} (h1 : Framed a b) (h2 : Framed b c) : Framed a c :=
  ⟨h2.1.trans h1.1, h2.2.1.trans h1.2.1, h2.2.2.1.trans h1.2.2.1,
    h1.2.2.2.trans h2.2.2.2⟩

theorem handleEvent_framed (inp : RenderInput) (event : AlvrEvent) (s s1 : Sys)
    (h : handleEvent inp event s = .ok s1) : Framed s s1 := by
  cases event with
  | HUD_MESSAGE_UPDATED n =>
    simp only [handleEvent, handleHudMessageUpdated, Except.ok.injEq] at h
    subst h
    unfold Framed
    split_ifs <;> simp [Sys.emit]
  | STREAMING_STARTED config =>
    by_cases hidle : s.ctx.inputThread = true
    · simp [handleEvent, handleStreamingStarted, hidle] at h
    · simp only [Bool.not_eq_true] at hidle
      simp only [handleEvent, handleStreamingStarted_eq inp config s hidle,
        Except.ok.injEq] at h
      subst h
      simp [Framed]
  | STREAMING_STOPPED =>
    by_cases hlive : s.ctx.inputThread = true
    · simp only [handleEvent, handleStreamingStopped_eq s hlive, Except.ok.injEq] at h
      subst h
      simp [Framed]
    · simp [handleEvent, handleStreamingStopped, hlive] at h
  | OTHER =>
    simp only [handleEvent, Except.ok.injEq] at h
    subst h
    exact Framed.refl s

theorem drainEvents_framed (inp : RenderInput) (es : List AlvrEvent) (s s1 : Sys)
    (h : drainEvents inp es s = .ok s1) : Framed s s1 := by
  induction es generalizing s with
  | nil =>
    simp only [drainEvents, Except.ok.injEq] at h
    subst h
    exact Framed.refl s
  | cons e rest ih =>
    simp only [drainEvents] at h
    cases he : handleEvent inp e s with
    | error f => simp [he] at h
    | ok m =>
      rw [he] at h
      exact (handleEvent_framed inp e s m he).trans (ih m h)

theorem finish_framed (inp : RenderInput) (s : Sys) : Framed s (finish inp s) := by
  rw [finish_eq]
  simp [Framed]

/-- Every event is handled in a state framed by the one the loop started in. -/
theorem handlingStates_framed (inp : RenderInput) (es : List AlvrEvent) (s : Sys) :
    ∀ p ∈ handlingStates inp es s, Framed s p.2 := by
  induction es generalizing s with
  | nil => simp [handlingStates]
  | cons e rest ih =>
    intro p hp
    simp only [handlingStates, List.mem_cons] at hp
    rcases hp with rfl | hp
    · exact Framed.refl s
    · cases he : handleEvent inp e s with
      | error f => simp [he] at hp
      | ok m =>
        rw [he] at hp
        exact (handleEvent_framed inp e s m he).trans (ih m p hp)

theorem viewsConfigSent_of_prefix (a b : List Effect) (h : a <+: b)
    (ha : viewsConfigSent a = true) : viewsConfigSent b = true := by
  obtain ⟨t, rfl⟩ := h
  simp only [viewsConfigSent, List.any_append, Bool.or_eq_true] at ha ⊢
  exact Or.inl ha

/-- C11, as stated, fails. With a stream-started and a stream-stopped event both pending
in an idle state, the one render step that drains the stream-started event also drains
the other, and ends with the streaming flag off and no tracking task; with a tracking
task already live, the render step that drains a stream-started event aborts. -/
theorem streamingStarted_step_counterexample :
    (∃ s s1, run startAndStopQueued initialSys = .ok s ∧
      s.events = [.STREAMING_STARTED sampleStreamingStarted, .STREAMING_STOPPED] ∧
      s.ctx.inputThread = false ∧
      renderNative sampleRenderInput s = .ok s1 ∧
      s1.ctx.streaming = false ∧ s1.ctx.inputThread = false) ∧
    (∃ s, run startedWhileStreaming initialSys = .ok s ∧
      s.events = [.STREAMING_STARTED sampleStreamingStarted] ∧
      s.ctx.inputThread = true ∧
      renderNative sampleRenderInput s = .error .thread_assigned_while_joinable) := by
  refine ⟨⟨_, _, rfl, rfl, ?_, rfl, ?_, ?_⟩, ⟨_, rfl, rfl, ?_, rfl⟩⟩ <;> decide

/-- C11, amended: for every stream-started event with view size `w x h`, in a state with
no live tracking task, the render step that drains it, when it gets past the calibration
check and no other pending event starts or stops the stream (the other pending events
are HUD or other events), completes, and its calls are: calls that
start or stop nothing, then exactly the handler's calls, then calls that start or stop
nothing and allocate no texture. The handler's calls generate two texture names, allocate
each with size `w x h`, send the view configuration again (the field of view of both eyes
and `eyeOffsets[0] - eyeOffsets[1]`), and start the stream on these two textures. At the
end of the step the two names are the stream textures, the streaming flag is set and the
tracking task is running. -/
theorem streamingStarted_step (inp : RenderInput) (s : Sys) (config : StreamingStarted)
    (pre post : List AlvrEvent)
    (hreach : reachesEventLoop inp s) (hidle : s.ctx.inputThread = false)
    (hq : s.events = pre ++ AlvrEvent.STREAMING_STARTED config :: post)
    (hpre : ∀ e ∈ pre, e.isStreamEvent = false)
    (hpost : ∀ e ∈ post, e.isStreamEvent = false) :
    ∃ s' before after, renderNative inp s = .ok s' ∧
      s'.trace = s.trace ++ before ++
        [ .glGenTextures s'.glGeneration [s'.ctx.streamTextures.1, s'.ctx.streamTextures.2],
          .glTexImage2D s'.ctx.streamTextures.1 config.view_width config.view_height,
          .glTexImage2D s'.ctx.streamTextures.2 config.view_width config.view_height,
          .CardboardLensDistortion_getFieldOfView .kLeft,
          .CardboardLensDistortion_getFieldOfView .kRight,
          .alvr_send_views_config (getFov (inp.fieldOfView .kLeft))
            (getFov (inp.fieldOfView .kRight))
            (s'.ctx.eyeOffsets.1 - s'.ctx.eyeOffsets.2),
          .alvr_start_stream_opengl
            (streamConfigOf config s'.ctx.streamTextures.1 s'.ctx.streamTextures.2),
          .store_streaming true,
          .thread_spawn ] ++ after ∧
      s'.ctx.streamTextures.2 = s'.ctx.streamTextures.1 + 1 ∧
      (∀ e ∈ before, e.isSessionCall = false) ∧
      (∀ e ∈ after, e.isSessionCall = false ∧ e.allocatesTexture = false) ∧
      s'.ctx.streaming = true ∧ s'.ctx.inputThread = true ∧ s'.events = [] := by
  obtain ⟨-, -, -, hthread, -, -, -, -, -, -, hev⟩ := prepare_frame inp s
  have htrace := prepare_trace_calls inp s
  have hquiet := prepareCalls_quiet inp s
  generalize hm0 : prepare inp s = m0 at hthread hev htrace
  have h1 := drainEvents_hud inp pre m0 hpre
  generalize hm1 : ({ m0 with trace := m0.trace ++ hudCalls pre } : Sys) = m1 at h1
  have hidle1 : m1.ctx.inputThread = false := by rw [← hm1]; simpa [hidle] using hthread
  have h2 := handleStreamingStarted_eq inp config m1 hidle1
  generalize hm2 : ({ m1 with
      nextName := m1.nextName + 2
      ctx := { m1.ctx with
        streamTextures := (m1.nextName, m1.nextName + 1), streaming := true,
        inputThread := true }
      trace := m1.trace ++ streamStartCalls inp config m1 } : Sys) = m2 at h2
  have h3 := drainEvents_hud inp post m2 hpost
  generalize hm3 : ({ m2 with trace := m2.trace ++ hudCalls post } : Sys) = m3 at h3
  have hrun : drainEvents inp s.events m0 = .ok m3 := by
    rw [hq, drainEvents_append, h1]
    simp only [drainEvents, handleEvent, h2, h3]
  have hfin := finish_eq inp m3
  have hfc := (finishCalls_spec inp m3).1
  refine ⟨finish inp m3, prepareCalls inp s ++ hudCalls pre,
    hudCalls post ++ finishCalls inp m3, ?_, ?_, ?_, ?_, ?_, ?_, ?_, ?_⟩
  · rw [renderNative_eq inp s hreach, hm0, hrun]
    rfl
  · rw [hfin]
    subst hm3 hm2 hm1
    simp [streamStartCalls, htrace, List.append_assoc]
  · rw [hfin]
    subst hm3 hm2 hm1
    simp
  · intro e he
    rcases List.mem_append.mp he with h | h
    · exact (hquiet e h).1
    · exact (hudCalls_quiet pre e h).1
  · intro e he
    rcases List.mem_append.mp he with h | h
    · exact ⟨(hudCalls_quiet post e h).1, (hudCalls_quiet post e h).2.1⟩
    · exact hfc e h
  · rw [hfin]
    subst hm3 hm2 hm1
    simp
  · rw [hfin]
    subst hm3 hm2 hm1
    simp
  · rw [hfin]
    subst hm3 hm2 hm1
    simpa using hev

/-- Witness of C11 (amended): the fresh process with the sample event (view 1280 x 720) pending. -/
theorem streamingStarted_step_witness :
    ∃ s', renderNative sampleRenderInput startedQueued = .ok s' ∧
      Effect.glTexImage2D s'.ctx.streamTextures.1 1280 720 ∈ s'.trace ∧
      Effect.glTexImage2D s'.ctx.streamTextures.2 1280 720 ∈ s'.trace ∧
      s'.ctx.streaming = true ∧ s'.ctx.inputThread = true := by
  obtain ⟨s', before, after, hrun, htrace, -, -, -, hs, ht, -⟩ :=
    streamingStarted_step sampleRenderInput startedQueued sampleStreamingStarted [] []
      (fun _ => by decide) rfl rfl (by simp) (by simp)
  refine ⟨s', hrun, ?_, ?_, hs, ht⟩
  · rw [htrace]; simp [sampleStreamingStarted]
  · rw [htrace]; simp [sampleStreamingStarted]

/-- C12, as stated, fails. In a streaming state with passthrough off and a stream-stopped
event followed by a stream-started event pending, the render step that drains the
stream-stopped event also drains the other: it ends with the streaming flag set and a
live tracking task, and the view phase 4 of this step renders is the stream, not the
lobby. -/
theorem streamingStopped_step_counterexample :
    ∃ s s1, run stopAndRestartQueued initialSys = .ok s ∧
      s.events = [.STREAMING_STOPPED, .STREAMING_STARTED sampleStreamingStarted] ∧
      s.ctx.streaming = true ∧ s.ctx.inputThread = true ∧ s.ctx.passthrough = false ∧
      renderNative sampleRenderInput s = .ok s1 ∧
      s1.ctx.streaming = true ∧ s1.ctx.inputThread = true ∧
      ((s1.trace.drop s.trace.length).filterMap Effect.source).dedup = [RenderMode.Streaming] ∧
      ((s1.trace.drop s.trace.length).filterMap Effect.source).dedup ≠ [RenderMode.Lobby] := by
  refine ⟨_, _, rfl, rfl, ?_, ?_, ?_, rfl, ?_, ?_, ?_, ?_⟩ <;> decide

/-- C12, amended: in every state in which streaming is active, that is with a live
tracking task (whatever the other fields), the render step that drains a stream-stopped
event, when it gets past the calibration check and no other pending event starts or
stops the stream (the other pending events are HUD or other events), completes, and
among its calls the store of
`false` to the streaming flag, the join of the tracking task and the delete of the two
stream textures come in this order, one right after the other; no other call of the step
touches the stream or the task. At the end the streaming flag is off and no task is
live, and the view phase 4 of this step renders is the lobby when passthrough is off and
the passthrough view when it is on. -/
theorem streamingStopped_step (inp : RenderInput) (s : Sys) (pre post : List AlvrEvent)
    (hreach : reachesEventLoop inp s) (hlive : s.ctx.inputThread = true)
    (hq : s.events = pre ++ AlvrEvent.STREAMING_STOPPED :: post)
    (hpre : ∀ e ∈ pre, e.isStreamEvent = false)
    (hpost : ∀ e ∈ post, e.isStreamEvent = false) :
    ∃ s' before after, renderNative inp s = .ok s' ∧
      s'.trace = s.trace ++ before ++
        [ .store_streaming false,
          .thread_join,
          .glDeleteTextures s.glGeneration [s.ctx.streamTextures.1, s.ctx.streamTextures.2] ]
        ++ after ∧
      (∀ e ∈ before, e.isSessionCall = false ∧ e.source = none) ∧
      (∀ e ∈ after, e.isSessionCall = false) ∧
      s'.ctx.streaming = false ∧ s'.ctx.inputThread = false ∧ s'.events = [] ∧
      (after.filterMap Effect.source).dedup = [renderModeOf s.ctx.passthrough false] ∧
      renderModeOf false false = .Lobby ∧ renderModeOf true false = .Passthrough := by
  obtain ⟨-, -, -, hthread, -, hpass, htex, -, -, hgen, hev⟩ := prepare_frame inp s
  have htrace := prepare_trace_calls inp s
  have hquiet := prepareCalls_quiet inp s
  generalize hm0 : prepare inp s = m0 at hthread hpass htex hgen hev htrace
  have h1 := drainEvents_hud inp pre m0 hpre
  generalize hm1 : ({ m0 with trace := m0.trace ++ hudCalls pre } : Sys) = m1 at h1
  have hlive1 : m1.ctx.inputThread = true := by rw [← hm1]; simpa [hlive] using hthread
  have h2 := handleStreamingStopped_eq m1 hlive1
  generalize hm2 : ({ m1 with
      ctx := { m1.ctx with streaming := false, inputThread := false }
      trace := m1.trace ++ streamStopCalls m1 } : Sys) = m2 at h2
  have h3 := drainEvents_hud inp post m2 hpost
  generalize hm3 : ({ m2 with trace := m2.trace ++ hudCalls post } : Sys) = m3 at h3
  have hrun : drainEvents inp s.events m0 = .ok m3 := by
    rw [hq, drainEvents_append, h1]
    simp only [drainEvents, handleEvent, h2, h3]
  have hfin := finish_eq inp m3
  obtain ⟨hfc, hsrc⟩ := finishCalls_spec inp m3
  have hpass3 : m3.ctx.passthrough = s.ctx.passthrough := by
    subst hm3 hm2 hm1; simpa using hpass
  have hstr3 : m3.ctx.streaming = false := by
    subst hm3 hm2 hm1; simp
  refine ⟨finish inp m3, prepareCalls inp s ++ hudCalls pre,
    hudCalls post ++ finishCalls inp m3, ?_, ?_, ?_, ?_, ?_, ?_, ?_, ?_, rfl, rfl⟩
  · rw [renderNative_eq inp s hreach, hm0, hrun]
    rfl
  · rw [hfin]
    subst hm3 hm2 hm1
    simp [streamStopCalls, htrace, hgen, htex, List.append_assoc]
  · intro e he
    rcases List.mem_append.mp he with h | h
    · exact hquiet e h
    · exact ⟨(hudCalls_quiet pre e h).1, (hudCalls_quiet pre e h).2.2⟩
  · intro e he
    rcases List.mem_append.mp he with h | h
    · exact (hudCalls_quiet post e h).1
    · exact (hfc e h).1
  · rw [hfin]
    subst hm3 hm2 hm1
    simp
  · rw [hfin]
    subst hm3 hm2 hm1
    simp
  · rw [hfin]
    subst hm3 hm2 hm1
    simpa using hev
  · have hnone : (hudCalls post).filterMap Effect.source = [] := by
      rw [List.filterMap_eq_nil_iff]
      exact fun e he => (hudCalls_quiet post e he).2.2
    rw [List.filterMap_append, hnone, List.nil_append, hsrc, hpass3, hstr3]

/-- Witness of C12 (amended): a streaming process with the stream-stopped event pending and
passthrough off. -/
theorem streamingStopped_step_witness :
    ∃ s' before after, renderNative sampleRenderInput stoppedQueued = .ok s' ∧
      s'.trace = stoppedQueued.trace ++ before ++
        [ .store_streaming false, .thread_join, .glDeleteTextures 1 [4, 5] ] ++ after ∧
      s'.ctx.streaming = false ∧ s'.ctx.inputThread = false ∧
      (after.filterMap Effect.source).dedup = [RenderMode.Lobby] := by
  obtain ⟨s', before, after, hrun, htrace, -, -, hs, ht, -, hsrc, -⟩ :=
    streamingStopped_step sampleRenderInput stoppedQueued [] []
      (fun h => by simp [stoppedQueued, initialSys] at h) rfl rfl (by simp) (by simp)
  exact ⟨s', before, after, hrun, htrace, hs, ht, hsrc⟩

/-- C13: for every timestamp and whatever position and orientation `(q0, q1, q2, q3)` the
head tracker reports, `getPose` returns the position `(0, FLOOR_HEIGHT, 0)` with
`FLOOR_HEIGHT = 3/2` and the orientation `(-q0, -q1, -q2, q3)`; replacing the position the
tracker reports by any other leaves the returned pose as it is. -/
theorem getPose_fixed_position (tracker : Int → TrackerReply) (timestampNs : Int)
    (pos : Float3 ℚ) :
    getPose tracker timestampNs =
      { position := { e0 := 0, e1 := 3 / 2, e2 := 0 }
        orientation :=
          { x := -(tracker (toInt64 timestampNs)).q.e0
            y := -(tracker (toInt64 timestampNs)).q.e1
            z := -(tracker (toInt64 timestampNs)).q.e2
            w := (tracker (toInt64 timestampNs)).q.e3 } } ∧
    FLOOR_HEIGHT = 3 / 2 ∧
    getPose (fun t => { tracker t with pos := pos }) timestampNs = getPose tracker timestampNs := by
  refine ⟨?_, rfl, ?_⟩
  · simp [getPose, inverseQuat, FLOOR_HEIGHT]
  · simp [getPose]

/-! ### Calibration before streaming -/

theorem run_invariant (P : Sys → Prop) (as : List Action)
    (hstep : ∀ a ∈ as, ∀ s s1, P s → step a s = .ok s1 → P s1) :
    ∀ s s1, P s → run as s = .ok s1 → P s1 := by
  induction as with
  | nil =>
    intro s s1 hP h
    simp only [run, Except.ok.injEq] at h
    exact h ▸ hP
  | cons a rest ih =>
    intro s s1 hP h
    simp only [run] at h
    cases hs : step a s with
    | error f => simp [hs] at h
    | ok m =>
      rw [hs] at h
      exact ih (fun b hb => hstep b (List.mem_cons_of_mem a hb)) m s1
        (hstep a (List.mem_cons_self a rest) s m hP hs) h

theorem lensCalls_sends (inp : RenderInput) (s : Sys) :
    (lensCalls inp s).any Effect.isViewsConfig = true := by
  unfold lensCalls
  split_ifs <;> simp [Effect.isViewsConfig]

/-- When the event loop starts, a lens calibration exists and a view configuration has
been sent, provided the state before the step was calibrated. -/
theorem prepare_calibrated (inp : RenderInput) (s : Sys) (h : Calibrated s) :
    (prepare inp s).ctx.lensDistortion = true ∧
    viewsConfigSent (prepare inp s).trace = true := by
  obtain ⟨-, -, hlens, -⟩ := prepare_frame inp s
  obtain ⟨h1, h2⟩ := h
  constructor
  · rw [hlens]
    rcases h1 with h1 | h1 <;> simp [h1]
  · rw [prepare_trace_calls]
    by_cases hd : s.ctx.renderingParamsChanged = true
    · simp [viewsConfigSent, prepareCalls, hd, lensCalls_sends]
    · have hl : s.ctx.lensDistortion = true := by
        rcases h1 with h1 | h1
        · exact absurd h1 hd
        · exact h1
      have := h2 hl
      simp only [viewsConfigSent, List.any_append, Bool.or_eq_true] at this ⊢
      exact Or.inl this

theorem renderNative_calibrated (inp : RenderInput) (s s1 : Sys) (h : Calibrated s)
    (hr : renderNative inp s = .ok s1) : Calibrated s1 := by
  by_cases hreach : reachesEventLoop inp s
  · rw [renderNative_eq inp s hreach] at hr
    cases hd : drainEvents inp s.events (prepare inp s) with
    | error f => simp [hd, Except.map] at hr
    | ok m =>
      rw [hd] at hr
      simp only [Except.map, Except.ok.injEq] at hr
      subst hr
      obtain ⟨-, -, hl, hp⟩ := (drainEvents_framed inp _ _ m hd).trans (finish_framed inp m)
      obtain ⟨c1, c2⟩ := prepare_calibrated inp s h
      exact ⟨Or.inr (hl.trans c1), fun _ => viewsConfigSent_of_prefix _ _ hp c2⟩
  · unfold reachesEventLoop at hreach
    simp only [Classical.not_imp, Decidable.not_not] at hreach
    obtain ⟨hd, hsize⟩ := hreach
    simp only [renderNative, hd, hsize, beq_self_eq_true, Bool.and_self, if_true,
      Except.ok.injEq] at hr
    subst hr
    obtain ⟨-, h2⟩ := h
    refine ⟨Or.inl (by simpa [Sys.emit] using hd), fun hl => ?_⟩
    have := h2 (by simpa [Sys.emit] using hl)
    simp only [Sys.emit, viewsConfigSent, List.any_append, Bool.or_eq_true] at this ⊢
    exact Or.inl this

theorem step_calibrated (a : Action) (s s1 : Sys) (hd : a.isDestroy = false)
    (h : Calibrated s) (hs : step a s = .ok s1) : Calibrated s1 := by
  cases a with
  | renderNative inp => exact renderNative_calibrated inp s s1 h hs
  | destroyNative => simp [Action.isDestroy] at hd
  | resumeNative size =>
    simp only [step, Except.ok.injEq] at hs
    subst hs
    obtain ⟨h1, h2⟩ := h
    unfold Calibrated resumeNative
    simp only [viewsConfigSent] at h2 ⊢
    split_ifs <;> simp_all [Sys.emit]
  | _ =>
    simp only [step, Except.ok.injEq] at hs
    subst hs
    obtain ⟨h1, h2⟩ := h
    simp only [viewsConfigSent] at h2
    simp_all [Calibrated, viewsConfigSent, initializeNative, pauseNative,
      setPassthroughActiveNative, setPassthroughSizeNative, surfaceCreatedNative,
      setScreenResolutionNative, sendBatteryLevel, switchViewerNative, Sys.emit]

theorem reachable_calibrated (s : Sys) (h : Reachable s) : Calibrated s := by
  obtain ⟨as, hnd, hrun⟩ := h
  refine run_invariant Calibrated as (fun a ha m m1 hm hstep => ?_) initialSys s ?_ hrun
  · exact step_calibrated a m m1 (hnd a ha) hm hstep
  · exact ⟨Or.inl rfl, fun hl => by simp [initialSys] at hl⟩

/-- C14: in every state reachable from the initial context by host calls other than
destroy, by arriving session events and by render steps, the configuration-dirty flag is
set or the lens calibration exists; and in every render step from such a state that gets
past the calibration check, each stream-started event is handled in a state in which the
lens calibration has been created and a view configuration has been sent. -/
theorem streaming_requires_calibration (s : Sys) (hs : Reachable s) :
    (s.ctx.renderingParamsChanged = true ∨ s.ctx.lensDistortion = true) ∧
    ∀ (inp : RenderInput) (config : StreamingStarted) (m : Sys),
      reachesEventLoop inp s →
      (AlvrEvent.STREAMING_STARTED config, m) ∈
        handlingStates inp s.events (prepare inp s) →
      m.ctx.lensDistortion = true ∧ viewsConfigSent m.trace = true := by
  have hc := reachable_calibrated s hs
  refine ⟨hc.1, fun inp config m _ hm => ?_⟩
  obtain ⟨c1, c2⟩ := prepare_calibrated inp s hc
  obtain ⟨-, -, hl, hp⟩ := handlingStates_framed inp s.events (prepare inp s) _ hm
  exact ⟨hl.trans c1, viewsConfigSent_of_prefix _ _ hp c2⟩

/-- Witness of C14: the fresh process with the sample stream-started event pending is
reachable, and the event is handled in the state in which the event loop starts. -/
theorem streaming_requires_calibration_witness :
    Reachable startedQueued ∧
    (prepare sampleRenderInput startedQueued).ctx.lensDistortion = true ∧
    viewsConfigSent (prepare sampleRenderInput startedQueued).trace = true :=
  ⟨⟨[.sessionEvent (.STREAMING_STARTED sampleStreamingStarted)], by simp [Action.isDestroy], rfl⟩,
   (streaming_requires_calibration startedQueued
      ⟨[.sessionEvent (.STREAMING_STARTED sampleStreamingStarted)],
        by simp [Action.isDestroy], rfl⟩).2
      sampleRenderInput sampleStreamingStarted (prepare sampleRenderInput startedQueued)
      (fun _ => by decide) (by simp [handlingStates, startedQueued])⟩

/-- C15: in every state in which the configuration-dirty flag is set, a render step that
finds the saved calibration buffer empty completes with the single call that reads the
buffer: nothing is released or allocated, no event is taken from the queue, no view is
rendered or composited, and every context field, the dirty flag included, is as before;
so the next render step, whatever it finds, starts by reading the buffer again. -/
theorem renderNative_without_calibration (inp : RenderInput) (s : Sys)
    (hdirty : s.ctx.renderingParamsChanged = true) (hsize : inp.savedParamsSize = 0) :
    ∃ s1, renderNative inp s = .ok s1 ∧
      s1.trace = s.trace ++ [.CardboardQrCode_getSavedDeviceParams] ∧
      s1.ctx = s.ctx ∧ s1.events = s.events ∧ s1.nextName = s.nextName ∧
      s1.glGeneration = s.glGeneration ∧ s1.ctx.renderingParamsChanged = true ∧
      ∀ (inp2 : RenderInput) (s2 : Sys), renderNative inp2 s1 = .ok s2 →
        s1.trace ++ [.CardboardQrCode_getSavedDeviceParams] <+: s2.trace := by
  refine ⟨s.emit .CardboardQrCode_getSavedDeviceParams, ?_, rfl, rfl, rfl, rfl, rfl, hdirty,
    fun inp2 s2 h2 => ?_⟩
  · simp [renderNative, hdirty, hsize]
  · generalize hm : s.emit .CardboardQrCode_getSavedDeviceParams = m at h2 ⊢
    have hdm : m.ctx.renderingParamsChanged = true := by rw [← hm]; exact hdirty
    by_cases hreach : reachesEventLoop inp2 m
    · rw [renderNative_eq inp2 m hreach] at h2
      cases hd : drainEvents inp2 m.events (prepare inp2 m) with
      | error f => simp [hd, Except.map] at h2
      | ok m1 =>
        rw [hd] at h2
        simp only [Except.map, Except.ok.injEq] at h2
        subst h2
        obtain ⟨-, -, -, hp⟩ := (drainEvents_framed inp2 _ _ m1 hd).trans (finish_framed inp2 m1)
        refine List.IsPrefix.trans ?_ hp
        rw [prepare_trace_calls]
        simp [prepareCalls, hdm]
    · unfold reachesEventLoop at hreach
      simp only [Classical.not_imp, Decidable.not_not] at hreach
      simp only [renderNative, hreach.1, hreach.2, beq_self_eq_true, Bool.and_self, if_true,
        Except.ok.injEq] at h2
      subst h2
      simp [Sys.emit]

/-- Witness of C15: the fresh process (its dirty flag is set) and an empty buffer. -/
theorem renderNative_without_calibration_witness :
    (initialSys.ctx.renderingParamsChanged = true ∧ uncalibratedRenderInput.savedParamsSize = 0) ∧
    ∃ s1, renderNative uncalibratedRenderInput initialSys = .ok s1 ∧
      s1.trace = initialSys.trace ++ [.CardboardQrCode_getSavedDeviceParams] ∧
      s1.ctx = initialSys.ctx := by
  refine ⟨⟨rfl, rfl⟩, ?_⟩
  obtain ⟨s1, h1, h2, h3, -⟩ :=
    renderNative_without_calibration uncalibratedRenderInput initialSys rfl rfl
  exact ⟨s1, h1, h2, h3⟩

theorem releases_prepareCalls (inp : RenderInput) (s : Sys) :
    (prepareCalls inp s).any Effect.releases =
      (s.ctx.renderingParamsChanged && !s.ctx.glContextRecreated) := by
  unfold prepareCalls
  by_cases hd : s.ctx.renderingParamsChanged = true <;>
    by_cases hr : s.ctx.glContextRecreated = true <;>
    by_cases hp : s.ctx.passthrough = true <;>
    simp [hd, hr, hp, lensCalls, releaseCalls, allocationCalls, passthroughTargetCalls,
      lobbyTextureCalls, Effect.releases, List.any_append]

theorem allocates_prepareCalls (inp : RenderInput) (s : Sys) :
    (prepareCalls inp s).any Effect.allocates =
      (s.ctx.renderingParamsChanged || s.ctx.glContextRecreated) := by
  unfold prepareCalls
  by_cases hd : s.ctx.renderingParamsChanged = true <;>
    by_cases hr : s.ctx.glContextRecreated = true <;>
    by_cases hp : s.ctx.passthrough = true <;>
    simp [hd, hr, hp, lensCalls, releaseCalls, cleanupCalls, allocationCalls,
      passthroughTargetCalls, lobbyTextureCalls, Effect.allocates, List.any_append]

/-- C16: a render step that passes the calibration check is the configuration and
resource phases, then the event loop, then the view and compositing phases. The calls of
the first two phases are the configuration calls (if the dirty flag is set), then the
release of the previous resources exactly when the dirty flag is set and the
context-recreated flag is not (ALVR's GL side paused, the passthrough target cleaned up,
the two lobby textures deleted), then an allocation exactly when one of the two flags is
set: the passthrough offscreen target when passthrough is on, the pair of lobby eye
textures of size `screenWidth / 2` x `screenHeight` otherwise. Both flags are false when
the event loop starts and after every completed step, and the step completes when no
pending event starts or stops the stream. -/
theorem resource_transition (inp : RenderInput) (s : Sys) (hreach : reachesEventLoop inp s) :
    renderNative inp s = Except.map (finish inp) (drainEvents inp s.events (prepare inp s)) ∧
    (prepare inp s).trace =
      s.trace ++
      (if s.ctx.renderingParamsChanged then
        Effect.CardboardQrCode_getSavedDeviceParams :: lensCalls inp s else []) ++
      (if s.ctx.renderingParamsChanged && !s.ctx.glContextRecreated then
        [Effect.alvr_pause_opengl] ++ cleanupCalls s ++
        [Effect.glDeleteTextures s.glGeneration
          [s.ctx.lobbyTextures.1, s.ctx.lobbyTextures.2]] else []) ++
      (if s.ctx.renderingParamsChanged || s.ctx.glContextRecreated then
        (if s.ctx.passthrough then
          [ .glGenTextures s.glGeneration [s.nextName],
            .glTexImage2D s.nextName s.ctx.screenWidth s.ctx.screenHeight,
            .glGenRenderbuffers s.glGeneration (s.nextName + 1),
            .glRenderbufferStorage (s.nextName + 1) s.ctx.screenWidth s.ctx.screenHeight,
            .glGenFramebuffers s.glGeneration (s.nextName + 2),
            .glBindFramebuffer (s.nextName + 2) ]
        else
          [ .glGenTextures s.glGeneration [s.nextName, s.nextName + 1],
            .glTexImage2D s.nextName (Int.tdiv s.ctx.screenWidth 2) s.ctx.screenHeight,
            .glTexImage2D (s.nextName + 1) (Int.tdiv s.ctx.screenWidth 2) s.ctx.screenHeight,
            .alvr_resume_opengl (Int.tdiv s.ctx.screenWidth 2) s.ctx.screenHeight
              (s.nextName, s.nextName + 1) 1 ]) else []) ∧
    ((prepareCalls inp s).any Effect.releases = true ↔
      (s.ctx.renderingParamsChanged = true ∧ s.ctx.glContextRecreated = false)) ∧
    ((prepareCalls inp s).any Effect.allocates = true ↔
      (s.ctx.renderingParamsChanged = true ∨ s.ctx.glContextRecreated = true)) ∧
    (prepare inp s).trace = s.trace ++ prepareCalls inp s ∧
    ((prepare inp s).ctx.renderingParamsChanged = false ∧
      (prepare inp s).ctx.glContextRecreated = false) ∧
    (∀ s1, renderNative inp s = .ok s1 →
      s1.ctx.renderingParamsChanged = false ∧ s1.ctx.glContextRecreated = false) ∧
    ((∀ e ∈ s.events, e.isStreamEvent = false) → ∃ s1, renderNative inp s = .ok s1) := by
  have heq := renderNative_eq inp s hreach
  obtain ⟨hf1, hf2, -⟩ := prepare_frame inp s
  refine ⟨heq, ?_, ?_, ?_, prepare_trace_calls inp s, ⟨hf1, hf2⟩, ?_, ?_⟩
  · rw [prepare_trace]
    rfl
  · rw [releases_prepareCalls]
    simp
  · rw [allocates_prepareCalls]
    simp
  · intro s1 h1
    rw [heq] at h1
    cases hd : drainEvents inp s.events (prepare inp s) with
    | error f => simp [hd, Except.map] at h1
    | ok m =>
      rw [hd] at h1
      simp only [Except.map, Except.ok.injEq] at h1
      subst h1
      obtain ⟨g1, g2, -, -⟩ := (drainEvents_framed inp _ _ m hd).trans (finish_framed inp m)
      exact ⟨g1.trans hf1, g2.trans hf2⟩
  · intro hq
    rw [heq, drainEvents_hud inp s.events (prepare inp s) hq]
    exact ⟨_, rfl⟩

/-- Witness of C16: the fresh process (dirty, context not recreated, passthrough off) with
a non-empty calibration buffer. -/
theorem resource_transition_witness :
    reachesEventLoop sampleRenderInput initialSys ∧
    (prepareCalls sampleRenderInput initialSys).any Effect.releases = true ∧
    (prepareCalls sampleRenderInput initialSys).any Effect.allocates = true ∧
    ((prepare sampleRenderInput initialSys).ctx.renderingParamsChanged = false ∧
      (prepare sampleRenderInput initialSys).ctx.glContextRecreated = false) :=
  ⟨fun _ => by decide,
   (resource_transition sampleRenderInput initialSys (fun _ => by decide)).2.2.1.mpr ⟨rfl, rfl⟩,
   (resource_transition sampleRenderInput initialSys (fun _ => by decide)).2.2.2.1.mpr
     (Or.inl rfl),
   (resource_transition sampleRenderInput initialSys (fun _ => by decide)).2.2.2.2.2.1⟩

/-! ### The tracking loop -/

theorem TRACKING_PERIOD_NS_eq : TRACKING_PERIOD_NS = 5555555 := by
  unfold TRACKING_PERIOD_NS
  rw [Int.floor_eq_iff]
  constructor <;> norm_num

theorem toInt64_of_range (x : Int) (h0 : -2 ^ 63 ≤ x) (h1 : x < 2 ^ 63) : toInt64 x = x := by
  unfold toInt64
  rw [Int.emod_eq_of_lt (by omega) (by omega)]
  omega

theorem inputThreadLoop_deadline (tracker : Int → TrackerReply)
    (iterations : List TrackingIteration) (st : InputThreadState)
    (h0 : 0 ≤ st.deadline)
    (h1 : st.deadline + (iterations.length : Int) * 5555555 < 2 ^ 63) :
    (inputThreadLoop tracker iterations st).deadline =
      st.deadline + (iterations.length : Int) * 5555555 := by
  induction iterations generalizing st with
  | nil => simp [inputThreadLoop]
  | cons it rest ih =>
    simp only [List.length_cons, Nat.cast_add, Nat.cast_one] at h1
    have hstep : (inputThreadIteration tracker it st).deadline = st.deadline + 5555555 := by
      simp only [inputThreadIteration, TRACKING_PERIOD_NS_eq]
      exact toInt64_of_range _ (by omega) (by omega)
    simp only [inputThreadLoop, List.length_cons, Nat.cast_add, Nat.cast_one]
    rw [ih _ (by omega) (by omega), hstep]
    ring

/-- C17: for every number `n` of iterations and whatever time the work of each iteration
takes, the deadline the tracking loop sleeps until after its `n`-th iteration is the
instant captured at loop start plus `n` times the period, and the period is 5,555,555 ns,
the truncation of `10^9 / 60 / 3`; the instants are `int64_t` nanosecond counts, so this
is for a non-negative start and deadlines below `2^63`. After each sleep the clock is at
the deadline or later. -/
theorem inputThread_deadline (tracker : Int → TrackerReply) (start : Int)
    (iterations : List TrackingIteration)
    (h0 : 0 ≤ start) (h1 : start + (iterations.length : Int) * 5555555 < 2 ^ 63) :
    (inputThread tracker start iterations).deadline =
      start + (iterations.length : Int) * TRACKING_PERIOD_NS ∧
    TRACKING_PERIOD_NS = 5555555 ∧
    TRACKING_PERIOD_NS = ⌊(1000000000 : ℚ) / 60 / 3⌋ ∧
    (inputThread tracker start iterations).deadline ≤ (inputThread tracker start iterations).now := by
  refine ⟨?_, TRACKING_PERIOD_NS_eq, rfl, ?_⟩
  · rw [TRACKING_PERIOD_NS_eq]
    exact inputThreadLoop_deadline tracker iterations _ h0 h1
  · unfold inputThread
    generalize hst : ({ now := start, deadline := start, sent := [] } : InputThreadState) = st
    have hle : st.deadline ≤ st.now := by rw [← hst]
    clear hst h0 h1
    induction iterations generalizing st with
    | nil => simpa [inputThreadLoop] using hle
    | cons it rest ih =>
      simp only [inputThreadLoop]
      exact ih _ (by simp [inputThreadIteration])

/-- Witness of C17: three iterations with different work times from the instant 1000. -/
theorem inputThread_deadline_witness :
    ((0 : Int) ≤ 1000 ∧ (1000 : Int) + 3 * 5555555 < 2 ^ 63) ∧
    (inputThread sampleRenderInput.headTracker 1000
      [⟨0, 0, 10⟩, ⟨7000000, 0, 9000000⟩, ⟨20000000, 5, 3⟩]).deadline =
      1000 + ((3 : Nat) : Int) * TRACKING_PERIOD_NS :=
  ⟨by decide,
   (inputThread_deadline sampleRenderInput.headTracker 1000
      [⟨0, 0, 10⟩, ⟨7000000, 0, 9000000⟩, ⟨20000000, 5, 3⟩] (by decide) (by decide)).1⟩

/-! ### Lobby eye origins and view sizes -/

theorem quatVecMultiply_offset_normSq (q : AlvrQuat ℚ) (o : ℚ)
    (hq : q.x ^ 2 + q.y ^ 2 + q.z ^ 2 + q.w ^ 2 = 1) :
    (quatVecMultiply q { e0 := o, e1 := 0, e2 := 0 }).e0 ^ 2 +
      (quatVecMultiply q { e0 := o, e1 := 0, e2 := 0 }).e1 ^ 2 +
      (quatVecMultiply q { e0 := o, e1 := 0, e2 := 0 }).e2 ^ 2 = o ^ 2 := by
  obtain ⟨x, y, z, w⟩ := q
  simp only [quatVecMultiply, cross] at hq ⊢
  linear_combination (4 * ((z * o) ^ 2 + (y * o) ^ 2)) * hq

/-- C18: in the lobby branch (both flags off) the lobby renderer is called with, for each
eye, the view input built from the predicted head pose and that eye's offset; this view
input has the head orientation, swapchain index 0 and the position
`head position - quatVecMultiply(head orientation, (eyeOffset, 0, 0))`. The head position
is `(0, 3/2, 0)`; hence for a unit head orientation the eye origin is at squared distance
`eyeOffset^2`, that is at distance `|eyeOffset|`, from `(0, 3/2, 0)`, and for the identity
orientation it is `(-eyeOffset, 3/2, 0)`. -/
theorem lobby_view_inputs (inp : RenderInput) (s : Sys) (pose : Pose) (o : ℚ)
    (fov : AlvrFov ℚ) (tracker : Int → TrackerReply) (timestampNs : Int) :
    Effect.alvr_render_lobby_opengl
        (lobbyViewInput
          (getPose inp.headTracker (toUint64 (inp.bootTimeNano + VSYNC_QUEUE_INTERVAL_NS)))
          s.ctx.eyeOffsets.1 (getFov (inp.fieldOfView .kLeft)))
        (lobbyViewInput
          (getPose inp.headTracker (toUint64 (inp.bootTimeNano + VSYNC_QUEUE_INTERVAL_NS)))
          s.ctx.eyeOffsets.2 (getFov (inp.fieldOfView .kRight)))
      ∈ phase4Calls inp
          { s with ctx := { s.ctx with passthrough := false, streaming := false } } ∧
    ((lobbyViewInput pose o fov).orientation = pose.orientation ∧
      (lobbyViewInput pose o fov).swapchain_index = 0 ∧
      (lobbyViewInput pose o fov).fov = fov ∧
      (lobbyViewInput pose o fov).position =
        { e0 := pose.position.e0 -
            (quatVecMultiply pose.orientation { e0 := o, e1 := 0, e2 := 0 }).e0
          e1 := pose.position.e1 -
            (quatVecMultiply pose.orientation { e0 := o, e1 := 0, e2 := 0 }).e1
          e2 := pose.position.e2 -
            (quatVecMultiply pose.orientation { e0 := o, e1 := 0, e2 := 0 }).e2 }) ∧
    (getPose tracker timestampNs).position = { e0 := 0, e1 := 3 / 2, e2 := 0 } ∧
    ((getPose tracker timestampNs).orientation.normSq = 1 →
      ((lobbyViewInput (getPose tracker timestampNs) o fov).position.e0 - 0) ^ 2 +
        ((lobbyViewInput (getPose tracker timestampNs) o fov).position.e1 - 3 / 2) ^ 2 +
        ((lobbyViewInput (getPose tracker timestampNs) o fov).position.e2 - 0) ^ 2 = o ^ 2 ∧
      Real.sqrt
        ((((lobbyViewInput (getPose tracker timestampNs) o fov).position.e0 - 0) ^ 2 +
          ((lobbyViewInput (getPose tracker timestampNs) o fov).position.e1 - 3 / 2) ^ 2 +
          ((lobbyViewInput (getPose tracker timestampNs) o fov).position.e2 - 0) ^ 2 : ℚ) : ℝ)
        = |(o : ℝ)|) ∧
    ((getPose tracker timestampNs).orientation = { x := 0, y := 0, z := 0, w := 1 } →
      (lobbyViewInput (getPose tracker timestampNs) o fov).position =
        { e0 := -o, e1 := 3 / 2, e2 := 0 }) := by
  have hpos : (getPose tracker timestampNs).position = { e0 := 0, e1 := 3 / 2, e2 := 0 } := by
    simp [getPose, FLOOR_HEIGHT]
  have hsq : (getPose tracker timestampNs).orientation.normSq = 1 →
      ((lobbyViewInput (getPose tracker timestampNs) o fov).position.e0 - 0) ^ 2 +
        ((lobbyViewInput (getPose tracker timestampNs) o fov).position.e1 - 3 / 2) ^ 2 +
        ((lobbyViewInput (getPose tracker timestampNs) o fov).position.e2 - 0) ^ 2 = o ^ 2 := by
    intro hunit
    have h := quatVecMultiply_offset_normSq (getPose tracker timestampNs).orientation o hunit
    simp only [lobbyViewInput, hpos]
    linear_combination h
  refine ⟨?_, ⟨rfl, rfl, rfl, rfl⟩, hpos, fun hunit => ⟨hsq hunit, ?_⟩, fun hid => ?_⟩
  · simp [phase4Calls, renderActiveView, renderLobby, Sys.emit]
  · rw [hsq hunit]
    push_cast
    exact Real.sqrt_sq_eq_abs _
  · simp only [lobbyViewInput, hpos, hid, quatVecMultiply, cross]
    norm_num

/-- Witness of C18: the sample input, whose tracker reports the identity orientation. -/
theorem lobby_view_inputs_witness :
    (getPose sampleRenderInput.headTracker 0).orientation.normSq = 1 ∧
    (getPose sampleRenderInput.headTracker 0).orientation = { x := 0, y := 0, z := 0, w := 1 } ∧
    (lobbyViewInput (getPose sampleRenderInput.headTracker 0) (3 / 100)
        (getFov (sampleRenderInput.fieldOfView .kLeft))).position =
      { e0 := -(3 / 100), e1 := 3 / 2, e2 := 0 } := by
  have hid : (getPose sampleRenderInput.headTracker 0).orientation =
      { x := 0, y := 0, z := 0, w := 1 } := by
    simp [getPose, sampleRenderInput, inverseQuat]
  refine ⟨by rw [hid]; norm_num [AlvrQuat.normSq], hid, ?_⟩
  exact (lobby_view_inputs sampleRenderInput initialSys (getPose sampleRenderInput.headTracker 0)
    (3 / 100) (getFov (sampleRenderInput.fieldOfView .kLeft)) sampleRenderInput.headTracker
    0).2.2.2.2 hid

/-- C19: for every `jint` screen size `w x h` given to both `initializeNative` and
`setScreenResolutionNative`, the view size announced at initialization is
`viewWidth w h x viewHeight w h`, the lobby eye textures are allocated, and handed to
ALVR's GL side, with size `w / 2 x h`; the two sizes are equal when `w ≥ h ≥ 0`, and they
are equal only then. -/
theorem view_size_matches_lobby_texture_size (w h : Int) (s : Sys)
    (hw0 : -2 ^ 31 ≤ w) (hw1 : w < 2 ^ 31) (hh0 : -2 ^ 31 ≤ h) (hh1 : h < 2 ^ 31) :
    (initializeNative w h s).trace =
      s.trace ++ [.alvr_initialize_core (viewWidth w h) (viewHeight w h),
        .CardboardHeadTracker_create] ∧
    (allocateResources (setScreenResolutionNative w h
        { s with ctx := { s.ctx with passthrough := false } })).trace =
      s.trace ++
        [ .glGenTextures s.glGeneration [s.nextName, s.nextName + 1],
          .glTexImage2D s.nextName (Int.tdiv w 2) h,
          .glTexImage2D (s.nextName + 1) (Int.tdiv w 2) h,
          .alvr_resume_opengl (Int.tdiv w 2) h (s.nextName, s.nextName + 1) 1 ] ∧
    (((viewWidth w h : Int) = Int.tdiv w 2 ∧ (viewHeight w h : Int) = h) ↔
      (0 ≤ h ∧ h ≤ w)) := by
  refine ⟨by simp [initializeNative, Sys.emit], ?_, ?_⟩
  · simp [allocateResources_eq, setScreenResolutionNative, allocationCalls, lobbyTextureCalls]
  · have hmod : (0 : Int) ≤ min w h % 2 ^ 32 := Int.emod_nonneg _ (by norm_num)
    constructor
    · rintro ⟨-, hv⟩
      simp only [viewHeight, toUint32, Int.toNat_of_nonneg hmod] at hv
      rcases le_total w h with hle | hle
      · rw [min_eq_left hle] at hv
        omega
      · rw [min_eq_right hle] at hv
        omega
    · rintro ⟨h0, hle⟩
      have hw : 0 ≤ w := le_trans h0 hle
      have hd0 : 0 ≤ w / 2 := Int.ediv_nonneg hw (by norm_num)
      constructor
      · simp only [viewWidth, toUint32, max_eq_left hle]
        rw [Int.tdiv_eq_ediv hw (by norm_num), Int.emod_eq_of_lt hd0 (by omega),
          Int.toNat_of_nonneg hd0]
      · simp only [viewHeight, toUint32, min_eq_right hle]
        rw [Int.emod_eq_of_lt h0 (by omega), Int.toNat_of_nonneg h0]

/-- Witness of C19 at the landscape size 1920 x 1080. -/
theorem view_size_matches_lobby_texture_size_witness :
    ((-2 ^ 31 : Int) ≤ 1920 ∧ (1920 : Int) < 2 ^ 31 ∧ (-2 ^ 31 : Int) ≤ 1080 ∧
      (1080 : Int) < 2 ^ 31 ∧ (0 : Int) ≤ 1080 ∧ (1080 : Int) ≤ 1920) ∧
    (viewWidth 1920 1080 : Int) = Int.tdiv 1920 2 ∧ (viewHeight 1920 1080 : Int) = 1080 :=
  ⟨by decide,
   (view_size_matches_lobby_texture_size 1920 1080 initialSys (by decide) (by decide)
      (by decide) (by decide)).2.2.mpr ⟨by decide, by decide⟩⟩

end PhoneVR
